import Mathlib

/-!
# MyKAD: parsing and generating Malaysian NRIC numbers

A shallow embedding of `mykad.go` (`NewMyKAD`, `decodeNRIC`, `Generate`, `Validate`)
together with the parts of the Go standard library it calls (`regexp`, `time.Parse`,
`strconv.Atoi`, `fmt.Sprintf`), and theorems about them.

Conventions.
* A Go string is a sequence of bytes, `GoString := List Nat`; `len` is the byte length.
* A Go call either returns or panics: `Outcome`.
* A Go `(T, error)` result is `Except _ T`.
* The declarations `mykad.go` uses but does not contain (`placeOfBirthCode` and its
  methods, `regions`, `CitizenType`, `Gender` and their constants) are the fields of `Decls`.
-/

namespace MyKad

/-! ## Strings, outcomes -/

/-- A Go string: a finite sequence of bytes. -/
abbrev GoString := List Nat

/-- The bytes of an ASCII literal (for ASCII text the UTF-8 bytes are the code points). -/
def ascii (s : String) : GoString := s.toList.map Char.toNat

/-- The result of running a Go function: it returns a value, or it panics. -/
inductive Outcome (α : Type) where
  | returns (a : α)
  | panics

/-- The slice expression `s[lo:hi]` on a string (used where the bounds are in range). -/
def slice (s : GoString) (lo hi : Nat) : GoString := (s.drop lo).take (hi - lo)

/-- The slice expression `xs[lo:]`: a run-time panic when `lo` exceeds `len(xs)`. -/
def sliceFrom {α : Type} (xs : List α) (lo : Nat) : Outcome (List α) :=
  if lo ≤ xs.length then Outcome.returns (xs.drop lo) else Outcome.panics

/-- The byte is an ASCII decimal digit. -/
def isDigitByte (b : Nat) : Bool := decide (48 ≤ b) && decide (b ≤ 57)

/-- The byte is a plus or a minus sign. -/
def isSignByte (b : Nat) : Bool := decide (b = 43) || decide (b = 45)

/-! ## regexp: the pattern of decodeNRIC -/

/-- The regex piece `\d{n}` at the front of `s`: the `n` digits and the rest. -/
def digitsN : Nat → GoString → Option (GoString × GoString)
  | 0, s => some ([], s)
  | _ + 1, [] => none
  | n + 1, b :: s =>
    if isDigitByte b then
      match digitsN n s with
      | some (g, r) => some (b :: g, r)
      | none => none
    else none

/-- The regex piece `-?` at the front of `s`, when a digit must follow: what is left. -/
def optHyphen (s : GoString) : GoString :=
  match s with
  | b :: r => if b = 45 then r else s
  | [] => s

/-- `regexp.MustCompile("^(\d{6})-?(\d{2})-?(\d{3})(\d{1})$").FindStringSubmatch(s)`:
the whole match followed by the four groups, or nil (the empty slice) when there is no match. -/
def FindStringSubmatch (s : GoString) : List GoString :=
  match digitsN 6 s with
  | none => []
  | some (g1, r1) =>
    match digitsN 2 (optHyphen r1) with
    | none => []
    | some (g2, r2) =>
      match digitsN 3 (optHyphen r2) with
      | none => []
      | some (g3, r3) =>
        match digitsN 1 r3 with
        | some (g4, []) => [s, g1, g2, g3, g4]
        | _ => []

/-- `decodeNRIC`: the split NRIC string. -/
def decodeNRIC (nric : GoString) : Outcome (List GoString) :=
  -- Try without dashes.
  if nric.length = 12 then
    Outcome.returns [slice nric 0 6, slice nric 6 8, slice nric 8 11, nric.drop 11]
  else
    -- Try with dashes.
    sliceFrom (FindStringSubmatch nric) 1

/-! ## time.Parse with the layout "060102" -/

/-- The calendar date of a `time.Time` (the clock part is not used by this program). -/
structure Date where
  year : Int
  month : Nat
  day : Nat
  deriving DecidableEq, Repr

/-- The message of a `time.ParseError`. -/
inductive ParseMsg where
  | bad
  | monthOutOfRange
  | dayOutOfRange
  | extraText
  deriving DecidableEq, Repr

/-- A `time.ParseError`. -/
structure ParseError where
  Layout : GoString
  Value : GoString
  LayoutElem : GoString
  ValueElem : GoString
  Message : ParseMsg
  deriving DecidableEq, Repr

/-- The loop of `leadingInt` in package time: the leading digits of `s` as an int64, and the
rest; `none` on overflow. -/
def leadingIntFrom (x : Nat) : GoString → Option (Nat × GoString)
  | [] => some (x, [])
  | c :: s =>
    if c < 48 ∨ c > 57 then some (x, c :: s)
    else if x > (2 ^ 63 - 1) / 10 then none
    else if 2 ^ 63 ≤ x * 10 + (c - 48) then none
    else leadingIntFrom (x * 10 + (c - 48)) s

/-- The helper `leadingInt` of package time. -/
def leadingInt (s : GoString) : Option (Nat × GoString) := leadingIntFrom 0 s

/-- The helper `atoi` of package time: an optional sign, then digits only. -/
def timeAtoi (s : GoString) : Option Int :=
  let neg : Bool := match s with
    | c :: _ => decide (c = 45)
    | [] => false
  let body : GoString := match s with
    | c :: r => if c = 45 ∨ c = 43 then r else s
    | [] => s
  match leadingInt body with
  | some (q, []) => some (if neg then -(q : Int) else (q : Int))
  | _ => none

/-- The helper `isDigit(s, i)` of package time. -/
def isDigitAt (s : GoString) (i : Nat) : Bool :=
  match s.get? i with
  | some c => isDigitByte c
  | none => false

/-- The helper `getnum(s, fixed)` of package time: a one- or two-digit number. -/
def getnum (s : GoString) (fixed : Bool) : Option (Nat × GoString) :=
  if !isDigitAt s 0 then none
  else if !isDigitAt s 1 then
    if fixed then none else some (s.headD 0 - 48, s.drop 1)
  else some ((s.headD 0 - 48) * 10 + ((s.drop 1).headD 0 - 48), s.drop 2)

/-- The table `daysBefore` of package time. -/
def daysBefore : List Nat := [0, 31, 59, 90, 120, 151, 181, 212, 243, 273, 304, 334, 365]

/-- The helper `isLeap` of package time. -/
def isLeap (year : Int) : Bool :=
  decide (year.tmod 4 = 0) && (decide (year.tmod 100 ≠ 0) || decide (year.tmod 400 = 0))

/-- The helper `daysIn` of package time. -/
def daysIn (m : Nat) (year : Int) : Nat :=
  if m = 2 ∧ isLeap year = true then 29
  else daysBefore.getD m 0 - daysBefore.getD (m - 1) 0

/-- The layout string of the date field. -/
def layout060102 : GoString := ascii "060102"

/-- `time.Parse("060102", value)`: the layout is a two-digit year (`06`), a two-digit month
(`01`) and a two-digit day (`02`); the result is that date at midnight UTC. -/
def timeParse (value : GoString) : Except ParseError Date :=
  -- stdYear
  if value.length < 2 then
    Except.error ⟨layout060102, value, ascii "06", value, ParseMsg.bad⟩
  else
    match timeAtoi (value.take 2) with
    | none => Except.error ⟨layout060102, value, ascii "06", value, ParseMsg.bad⟩
    | some y =>
      let year : Int := if 69 ≤ y then y + 1900 else y + 2000
      let v1 := value.drop 2
      -- stdZeroMonth
      match getnum v1 true with
      | none => Except.error ⟨layout060102, value, ascii "01", v1, ParseMsg.bad⟩
      | some (month, v2) =>
        if month ≤ 0 ∨ 12 < month then
          Except.error ⟨layout060102, value, ascii "01", v2, ParseMsg.monthOutOfRange⟩
        else
          -- stdZeroDay
          match getnum v2 true with
          | none => Except.error ⟨layout060102, value, ascii "02", v2, ParseMsg.bad⟩
          | some (day, v3) =>
            if v3.length ≠ 0 then
              Except.error ⟨layout060102, value, [], v3, ParseMsg.extraText⟩
            else if day < 1 ∨ day > daysIn month year then
              Except.error ⟨layout060102, value, [], v3, ParseMsg.dayOutOfRange⟩
            else Except.ok ⟨year, month, day⟩

/-! ## strconv.Atoi -/

/-- The `Err` of a `strconv.NumError`. -/
inductive NumErrKind where
  | ErrSyntax
  | ErrRange
  deriving DecidableEq, Repr

/-- A `strconv.NumError` of `Atoi`: the text that failed and why. -/
structure NumError where
  Num : GoString
  Err : NumErrKind
  deriving DecidableEq, Repr

/-- The digit loop of `strconv.Atoi` and `strconv.ParseUint` in base 10: the value of the
digits, a syntax error at the first byte that is not a digit, a range error as soon as the
value leaves 64 bits. -/
def atoiDigits (n : Nat) : GoString → Except NumErrKind Nat
  | [] => Except.ok n
  | ch :: s =>
    if isDigitByte ch then
      if 2 ^ 64 ≤ n * 10 + (ch - 48) then Except.error NumErrKind.ErrRange
      else atoiDigits (n * 10 + (ch - 48)) s
    else Except.error NumErrKind.ErrSyntax

/-- `strconv.Atoi(s)` on a 64-bit platform: an optional sign, then decimal digits. -/
def Atoi (s : GoString) : Except NumError Int :=
  match s with
  | [] => Except.error ⟨s, NumErrKind.ErrSyntax⟩
  | c :: r =>
    let body : GoString := if c = 45 ∨ c = 43 then r else s
    if body.length < 1 then Except.error ⟨s, NumErrKind.ErrSyntax⟩
    else
      match atoiDigits 0 body with
      | Except.error k => Except.error ⟨s, k⟩
      | Except.ok n =>
        if c = 45 then
          if 2 ^ 63 < n then Except.error ⟨s, NumErrKind.ErrRange⟩ else Except.ok (-(n : Int))
        else
          if 2 ^ 63 ≤ n then Except.error ⟨s, NumErrKind.ErrRange⟩ else Except.ok (n : Int)

/-! ## The declarations outside mykad.go -/

/-- The declarations `mykad.go` refers to and does not contain. `placeOfBirthCode` is an
integer type; each of its methods is given as a function of the integer that is converted
to it, and `regions` as the lookup in the table (the empty string for an absent key). The
types `CitizenType` and `Gender` are given with their constants and, for `CitizenType`,
the zero value of a declared and unassigned variable. -/
structure Decls where
  /-- The method `placeOfBirthCode.valid`. -/
  valid : Int → Bool
  /-- The method `placeOfBirthCode.isMalaysianCode`. -/
  isMalaysianCode : Int → Bool
  /-- The method `placeOfBirthCode.isForeignerCode`. -/
  isForeignerCode : Int → Bool
  /-- The table `regions`. -/
  regions : Int → GoString
  /-- The type `CitizenType`. -/
  CitizenType : Type
  /-- The zero value of `CitizenType`. -/
  CitizenTypeZero : CitizenType
  CitizenTypeMalaysian : CitizenType
  CitizenTypeForeigner : CitizenType
  /-- The type `Gender`. -/
  Gender : Type
  GenderMale : Gender
  GenderFemale : Gender

/-! ## NewMyKAD -/

/-- The struct `PlaceOfBirth`. -/
structure PlaceOfBirth where
  Country : GoString
  Province : GoString
  deriving DecidableEq, Repr

/-- The struct `MyKAD`. -/
structure MyKAD (D : Decls) where
  NRIC : GoString
  DateOfBirth : Date
  PlaceOfBirth : PlaceOfBirth
  CitizenType : D.CitizenType
  Gender : D.Gender

/-- The errors `NewMyKAD` builds: two fixed messages and three wrapped library errors. -/
inductive Error where
  /-- The message "invalid mykad number". -/
  | invalidMyKAD
  /-- The message "error parsing date: " followed by the parse error. -/
  | parsingDate (err : ParseError)
  /-- The message "error parsing location: " followed by the number error. -/
  | parsingLocation (err : NumError)
  /-- The message "invalid place of birth". -/
  | invalidPlaceOfBirth
  /-- The message "error parsing gender: " followed by the number error. -/
  | parsingGender (err : NumError)
  deriving DecidableEq, Repr

/-- `NewMyKAD`: a new malaysian identity from a provided NRIC number. -/
def NewMyKAD (D : Decls) (nric : GoString) : Outcome (Except Error (MyKAD D)) :=
  match decodeNRIC nric with
  | Outcome.panics => Outcome.panics
  | Outcome.returns s =>
    match s with
    | [s0, s1, _, s3] =>
      -- Parse date of birth.
      match timeParse s0 with
      | Except.error err => Outcome.returns (Except.error (Error.parsingDate err))
      | Except.ok dob =>
        -- Parse place of birth.
        match Atoi s1 with
        | Except.error err => Outcome.returns (Except.error (Error.parsingLocation err))
        | Except.ok pob =>
          if !D.valid pob then Outcome.returns (Except.error Error.invalidPlaceOfBirth)
          else
            let re := D.regions pob
            -- `var c CitizenType; var pb PlaceOfBirth` start as zero values.
            let cpb : D.CitizenType × PlaceOfBirth :=
              if D.isMalaysianCode pob then
                (D.CitizenTypeMalaysian, { Country := ascii "Malaysia", Province := re })
              else if D.isForeignerCode pob then
                (D.CitizenTypeForeigner, { Country := re, Province := [] })
              else (D.CitizenTypeZero, { Country := [], Province := [] })
            -- Parse gender.
            match Atoi s3 with
            | Except.error err => Outcome.returns (Except.error (Error.parsingGender err))
            | Except.ok g =>
              Outcome.returns (Except.ok
                { NRIC := nric
                  DateOfBirth := dob
                  PlaceOfBirth := cpb.2
                  CitizenType := cpb.1
                  Gender := if g.tmod 2 = 0 then D.GenderFemale else D.GenderMale })
    | _ => Outcome.returns (Except.error Error.invalidMyKAD)

/-- `Validate`: the error of `NewMyKAD`, or nil (`none`). -/
def Validate (D : Decls) (nric : GoString) : Outcome (Option Error) :=
  match NewMyKAD D nric with
  | Outcome.panics => Outcome.panics
  | Outcome.returns (Except.error err) => Outcome.returns (some err)
  | Outcome.returns (Except.ok _) => Outcome.returns none

/-- The citizen type and the place of birth `NewMyKAD` assigns to a valid code `pob`
(the `if`/`else if` of `NewMyKAD`, which leaves both at their zero values when neither
branch is taken). -/
def classify (D : Decls) (pob : Int) : D.CitizenType × PlaceOfBirth :=
  if D.isMalaysianCode pob then
    (D.CitizenTypeMalaysian, { Country := ascii "Malaysia", Province := D.regions pob })
  else if D.isForeignerCode pob then
    (D.CitizenTypeForeigner, { Country := D.regions pob, Province := [] })
  else (D.CitizenTypeZero, { Country := [], Province := [] })

/-- The four parsed fields of a result of `NewMyKAD`, leaving the stored NRIC text out. -/
def parsedFields {D : Decls} :
    Outcome (Except Error (MyKAD D)) →
      Outcome (Except Error (Date × PlaceOfBirth × D.CitizenType × D.Gender))
  | Outcome.panics => Outcome.panics
  | Outcome.returns (Except.error e) => Outcome.returns (Except.error e)
  | Outcome.returns (Except.ok r) =>
    Outcome.returns (Except.ok (r.DateOfBirth, r.PlaceOfBirth, r.CitizenType, r.Gender))

/-- A sample of the missing declarations holding the two table entries named by the scenarios
of the specification: 14 is the Malaysian state Selangor, 74 the foreign country China, and no
other code is valid. The two types are enumerations counted from zero. -/
def sampleDecls : Decls where
  valid := fun c => decide (c = 14) || decide (c = 74)
  isMalaysianCode := fun c => decide (c = 14)
  isForeignerCode := fun c => decide (c = 74)
  regions := fun c => if c = 14 then ascii "Selangor" else if c = 74 then ascii "China" else []
  CitizenType := Nat
  CitizenTypeZero := 0
  CitizenTypeMalaysian := 0
  CitizenTypeForeigner := 1
  Gender := Nat
  GenderMale := 0
  GenderFemale := 1

/-! ## Formatting: time.Format and fmt.Sprintf -/

/-- The digit loop of `appendInt` (package time) and `fmtInteger` (package fmt): the decimal
digits of `u`, most significant first, in front of `acc`. The first argument bounds the
number of digits, as the buffer does. -/
def digitsLoop : Nat → Nat → GoString → GoString
  | 0, _, acc => acc
  | k + 1, u, acc =>
    if 10 ≤ u then digitsLoop k (u / 10) ((48 + u % 10) :: acc) else (48 + u) :: acc

/-- The decimal digits of an unsigned 64-bit value (at most twenty of them). -/
def natDigits (u : Nat) : GoString := digitsLoop 20 u []

/-- The helper `appendInt(b, x, width)` of package time: `x` zero-padded to `width`. -/
def appendInt (b : GoString) (x : Int) (width : Nat) : GoString :=
  (if x < 0 then b ++ [45] else b) ++
    List.replicate (width - (natDigits x.natAbs).length) 48 ++ natDigits x.natAbs

/-- `t.Format("060102")` for a time whose calendar date is `d`. The two-digit year is taken
from the absolute value of the year (`y := year; if y < 0 { y = -y }`). -/
def format060102 (d : Date) : GoString :=
  let y : Int := if d.year < 0 then -d.year else d.year
  appendInt (appendInt (appendInt [] (y.tmod 100) 2) d.month 2) d.day 2

/-- The verb `%0wd` of `fmt.Sprintf`: `x` in decimal, zero-padded to `width` bytes, the sign
of a negative number counting as one of them. -/
def sprintfZeroPad (width : Nat) (x : Int) : GoString :=
  if x < 0 then
    45 :: (List.replicate (width - 1 - (natDigits x.natAbs).length) 48 ++ natDigits x.natAbs)
  else List.replicate (width - (natDigits x.natAbs).length) 48 ++ natDigits x.natAbs

/-! ## Generate -/

/-- The constant `minAge`. -/
def minAge : Int := 12

/-- The constant `maxAge`. -/
def maxAge : Int := 112

/-- What one call of `Generate` reads from outside the program: the clock and the outcomes
of the random source. -/
structure World where
  /-- The value `n.AddDate(years, 0, 0).Unix()` for the clock reading `n := time.Now()`. -/
  unixAddYears : Int → Int
  /-- The outcome of `rand.Int63n(e - s)`. -/
  int63n : Int
  /-- The calendar date, in the local zone, of the instant `time.Unix(sec, 0)`. -/
  localDate : Int → Date
  /-- The outcomes of the successive calls `rand.Intn(99)`. -/
  draws : List Nat
  /-- The outcome of `rand.Intn(9999)`. -/
  intn9999 : Nat

/-- The loop `for !p.valid() { p = placeOfBirthCode(rand.Intn(99)) }` started with `p` and
fed the given outcomes: the code it ends with, or `none` when the outcomes run out with the
loop still running. -/
def placeLoop (D : Decls) : Int → List Nat → Option Int
  | p, [] => if D.valid p then some p else none
  | p, x :: rest => if D.valid p then some p else placeLoop D (x : Int) rest

/-- `Generate`: a new random MyKAD number. `none` when the given outcomes of `rand.Intn(99)`
do not end the loop. -/
def Generate (D : Decls) (W : World) : Option (Outcome GoString) :=
  -- Generate a random date for the year component.
  let e := W.unixAddYears (-minAge)
  let s := W.unixAddYears (-maxAge)
  -- `rand.Int63n` panics on an argument that is not positive.
  if e - s ≤ 0 then some Outcome.panics
  else
    let sec := W.int63n + s
    let ds := format060102 (W.localDate sec)
    -- Generate a random place; `var p placeOfBirthCode` starts as zero.
    match placeLoop D 0 W.draws with
    | none => none
    | some p =>
      -- Generate a special number.
      let sn : Int := (W.intn9999 : Int)
      some (Outcome.returns
        (ds ++ [45] ++ sprintfZeroPad 2 p ++ [45] ++ sprintfZeroPad 4 sn))

/-- A calendar date, of any year: a month from 1 to 12 and a day of that month. -/
def IsCivilDate (d : Date) : Prop :=
  1 ≤ d.month ∧ d.month ≤ 12 ∧ 1 ≤ d.day ∧ d.day ≤ daysIn d.month d.year

instance (d : Date) : Decidable (IsCivilDate d) := by
  unfold IsCivilDate; infer_instance

/-- A sample world: the clock reads 2026-11-04 00:00:00 UTC, the sampled instant falls on
2000-02-29, the loop draws 98, 0 and 14, and the last draw is 9998. -/
def sampleWorld : World where
  unixAddYears := fun y => if y = -12 then 1415059200 else -1740700800
  int63n := 2692483200
  localDate := fun sec => if sec = 951782400 then ⟨2000, 2, 29⟩ else ⟨1970, 1, 1⟩
  draws := [98, 0, 14]
  intn9999 := 9998

/-! ## Calendar dates, as the specification words them -/

/-- The number a two-digit field denotes. -/
def twoDigit (a b : Nat) : Nat := (a - 48) * 10 + (b - 48)

/-- The year `time.Parse` gives a two-digit year: 69 to 99 are 1969 to 1999, 00 to 68 are
2000 to 2068. -/
def pivotYear (yy : Nat) : Int := if 69 ≤ (yy : Int) then (yy : Int) + 1900 else (yy : Int) + 2000

/-- A leap year: divisible by 4, and not by 100 unless by 400. -/
def LeapYear (y : Int) : Prop := y % 4 = 0 ∧ (y % 100 ≠ 0 ∨ y % 400 = 0)

instance (y : Int) : Decidable (LeapYear y) := by
  unfold LeapYear; infer_instance

/-- The number of days of a month of a year. -/
def monthLength (y : Int) (m : Nat) : Nat :=
  if m = 2 then (if LeapYear y then 29 else 28)
  else if m = 4 ∨ m = 6 ∨ m = 9 ∨ m = 11 then 30
  else 31

/-- The field `YYMMDD` names a calendar date: the month is 01 to 12 and the day is a day of
that month in the year `YY` denotes. -/
def ValidYYMMDD (yy mm dd : Nat) : Prop :=
  1 ≤ mm ∧ mm ≤ 12 ∧ 1 ≤ dd ∧ dd ≤ monthLength (pivotYear yy) mm

instance (yy mm dd : Nat) : Decidable (ValidYYMMDD yy mm dd) := by
  unfold ValidYYMMDD; infer_instance

/-- The record of the text "900101-74-0000" under the sample declarations. -/
def chinaRecord : MyKAD sampleDecls where
  NRIC := ascii "900101-74-0000"
  DateOfBirth := ⟨1990, 1, 1⟩
  PlaceOfBirth := ⟨ascii "China", []⟩
  CitizenType := sampleDecls.CitizenTypeForeigner
  Gender := sampleDecls.GenderFemale

/-! ## The spellings of an NRIC -/

/-- The spelling of the twelve bytes `d` with a hyphen after byte 6 when `h1` holds and a
hyphen after byte 8 when `h2` holds. -/
def spell (d : GoString) (h1 h2 : Bool) : GoString :=
  slice d 0 6 ++ (if h1 then [45] else []) ++ slice d 6 8 ++ (if h2 then [45] else []) ++
    d.drop 8

/-- The punctuated form: six digits, an optional hyphen, two digits, an optional hyphen,
three digits, one digit. -/
def PunctuatedForm (s : GoString) : Prop :=
  ∃ (d : GoString) (h1 h2 : Bool),
    d.length = 12 ∧ (∀ b ∈ d, isDigitByte b = true) ∧ s = spell d h1 h2

/-! ## The groups of a generated number -/

/-- The last four bytes of a text. -/
def lastFour (s : GoString) : GoString := s.drop (s.length - 4)

/-- The number a run of decimal digits denotes. -/
def groupValue (g : GoString) : Nat := g.foldl (fun acc b => acc * 10 + (b - 48)) 0

/-- A sample of the missing declarations in which code 0 is valid and in neither partition:
14 is the Malaysian state Selangor, no code is foreign, and the zero value of `CitizenType`
is a third value. -/
def zeroDecls : Decls where
  valid := fun c => decide (c = 0) || decide (c = 14)
  isMalaysianCode := fun c => decide (c = 14)
  isForeignerCode := fun _ => false
  regions := fun c => if c = 14 then ascii "Selangor" else []
  CitizenType := Nat
  CitizenTypeZero := 0
  CitizenTypeMalaysian := 1
  CitizenTypeForeigner := 2
  Gender := Nat
  GenderMale := 0
  GenderFemale := 1

/-! # Theorems -/

/-! ## Lemmas on the pattern -/

theorem digitsN_some (n : Nat) : ∀ (s g r : GoString), digitsN n s = some (g, r) →
    s = g ++ r ∧ g.length = n ∧ ∀ b ∈ g, isDigitByte b = true := by
  induction n with
  | zero =>
    intro s g r h
    simp [digitsN] at h
    obtain ⟨rfl, rfl⟩ := h
    simp
  | succ n ih =>
    intro s g r h
    cases s with
    | nil => simp [digitsN] at h
    | cons b t =>
      simp only [digitsN] at h
      split at h
      · rename_i hb
        cases hrec : digitsN n t with
        | none => simp [hrec] at h
        | some p =>
          obtain ⟨g1, r1⟩ := p
          simp [hrec] at h
          obtain ⟨rfl, rfl⟩ := h
          obtain ⟨h1, h2, h3⟩ := ih t g1 r1 hrec
          refine ⟨by simp [h1], by simp [h2], ?_⟩
          intro x hx
          rcases List.mem_cons.mp hx with rfl | hx
          · exact hb
          · exact h3 x hx
      · simp at h

theorem optHyphen_cases (s : GoString) : s = optHyphen s ∨ s = 45 :: optHyphen s := by
  cases s with
  | nil => simp [optHyphen]
  | cons b r =>
    by_cases hb : b = 45
    · right; simp [optHyphen, hb]
    · left; simp [optHyphen, hb]

/-- A match of the pattern is a spelling of twelve digits. -/
theorem FindStringSubmatch_form (s : GoString) (h : FindStringSubmatch s ≠ []) :
    PunctuatedForm s := by
  unfold FindStringSubmatch at h
  cases e1 : digitsN 6 s with
  | none => simp [e1] at h
  | some p1 =>
    obtain ⟨g1, r1⟩ := p1
    simp only [e1] at h
    cases e2 : digitsN 2 (optHyphen r1) with
    | none => simp [e2] at h
    | some p2 =>
      obtain ⟨g2, r2⟩ := p2
      simp only [e2] at h
      cases e3 : digitsN 3 (optHyphen r2) with
      | none => simp [e3] at h
      | some p3 =>
        obtain ⟨g3, r3⟩ := p3
        simp only [e3] at h
        cases e4 : digitsN 1 r3 with
        | none => simp [e4] at h
        | some p4 =>
          obtain ⟨g4, r4⟩ := p4
          cases r4 with
          | cons x xs => simp [e4] at h
          | nil =>
            obtain ⟨a1, l1, d1⟩ := digitsN_some 6 s g1 r1 e1
            obtain ⟨a2, l2, d2⟩ := digitsN_some 2 _ g2 r2 e2
            obtain ⟨a3, l3, d3⟩ := digitsN_some 3 _ g3 r3 e3
            obtain ⟨a4, l4, d4⟩ := digitsN_some 1 _ g4 [] e4
            have hd : ∀ b ∈ g1 ++ g2 ++ g3 ++ g4, isDigitByte b = true := by
              intro b hb
              simp only [List.mem_append] at hb
              rcases hb with ((hb | hb) | hb) | hb
              · exact d1 b hb
              · exact d2 b hb
              · exact d3 b hb
              · exact d4 b hb
            have hl : (g1 ++ g2 ++ g3 ++ g4).length = 12 := by simp [l1, l2, l3, l4]
            have hs : ∀ (x y : Bool), spell (g1 ++ g2 ++ g3 ++ g4) x y =
                g1 ++ (if x then [45] else []) ++ g2 ++ (if y then [45] else []) ++
                  (g3 ++ g4) := by
              intro x y
              simp [spell, slice, List.take_append_eq_append_take, List.drop_append_eq_append_drop,
                l1, l2, l3, l4]
            rcases optHyphen_cases r1 with c1 | c1 <;> rcases optHyphen_cases r2 with c2 | c2
            · refine ⟨_, false, false, hl, hd, ?_⟩
              rw [hs, a1, c1, a2, c2, a3, a4]; simp
            · refine ⟨_, false, true, hl, hd, ?_⟩
              rw [hs, a1, c1, a2, c2, a3, a4]; simp
            · refine ⟨_, true, false, hl, hd, ?_⟩
              rw [hs, a1, c1, a2, c2, a3, a4]; simp
            · refine ⟨_, true, true, hl, hd, ?_⟩
              rw [hs, a1, c1, a2, c2, a3, a4]; simp

/-! ## Lemmas on the library functions -/

theorem isDigitByte_iff (b : Nat) : isDigitByte b = true ↔ 48 ≤ b ∧ b ≤ 57 := by
  simp [isDigitByte]

theorem isDigitByte_false_iff (b : Nat) : isDigitByte b = false ↔ b < 48 ∨ 57 < b := by
  rw [← Bool.not_eq_true, isDigitByte_iff]; omega

theorem getnum_fixed (a b : Nat) (r : GoString) :
    getnum (a :: b :: r) true =
      if isDigitByte a = true ∧ isDigitByte b = true then
        some ((a - 48) * 10 + (b - 48), r) else none := by
  by_cases ha : isDigitByte a = true <;> by_cases hb : isDigitByte b = true <;>
    simp [getnum, isDigitAt, ha, hb]

theorem timeAtoi_two (a b : Nat) :
    timeAtoi [a, b] =
      if isDigitByte b = true then
        if isDigitByte a = true then some (((a - 48) * 10 + (b - 48) : Nat) : Int)
        else if a = 45 then some (-((b - 48 : Nat) : Int))
        else if a = 43 then some ((b - 48 : Nat) : Int)
        else none
      else none := by
  by_cases hb : isDigitByte b = true
  · have hb2 := (isDigitByte_iff b).mp hb
    by_cases ha : isDigitByte a = true
    · have ha2 := (isDigitByte_iff a).mp ha
      have h1 : a ≠ 45 := by omega
      have h2 : a ≠ 43 := by omega
      have h3 : ¬ (a < 48 ∨ 57 < a) := by omega
      have h4 : ¬ (b < 48 ∨ 57 < b) := by omega
      have h5 : ¬ (9223372036854775808 ≤ a - 48) := by omega
      have h6 : ¬ (922337203685477580 < a - 48) := by omega
      have h7 : ¬ (9223372036854775808 ≤ (a - 48) * 10 + (b - 48)) := by omega
      simp [timeAtoi, leadingInt, leadingIntFrom, ha, hb, h1, h2, h3, h4, h5, h6, h7]
    · have ha2 := (isDigitByte_false_iff a).mp (by simpa using ha)
      have h4 : ¬ (b < 48 ∨ 57 < b) := by omega
      have h5 : ¬ (9223372036854775808 ≤ b - 48) := by omega
      by_cases h1 : a = 45
      · subst h1
        simp [timeAtoi, leadingInt, leadingIntFrom, ha, hb, h4, h5]
      · by_cases h2 : a = 43
        · subst h2
          simp [timeAtoi, leadingInt, leadingIntFrom, ha, hb, h4, h5]
        · simp [timeAtoi, leadingInt, leadingIntFrom, ha, hb, h1, h2, ha2]
  · have hb2 := (isDigitByte_false_iff b).mp (by simpa using hb)
    by_cases ha : isDigitByte a = true
    · have ha2 := (isDigitByte_iff a).mp ha
      have h1 : a ≠ 45 := by omega
      have h2 : a ≠ 43 := by omega
      have h3 : ¬ (a < 48 ∨ 57 < a) := by omega
      have h5 : ¬ (9223372036854775808 ≤ a - 48) := by omega
      simp [timeAtoi, leadingInt, leadingIntFrom, ha, hb, h1, h2, h3, h5, hb2]
    · have ha2 := (isDigitByte_false_iff a).mp (by simpa using ha)
      by_cases h1 : a = 45
      · simp [timeAtoi, leadingInt, leadingIntFrom, ha, hb, h1, hb2]
      · by_cases h2 : a = 43
        · simp [timeAtoi, leadingInt, leadingIntFrom, ha, hb, h2, hb2]
        · simp [timeAtoi, leadingInt, leadingIntFrom, ha, hb, h1, h2, ha2]

theorem Atoi_one (a : Nat) :
    Atoi [a] = if isDigitByte a = true then Except.ok (((a - 48 : Nat) : Int))
      else Except.error ⟨[a], NumErrKind.ErrSyntax⟩ := by
  by_cases ha : isDigitByte a = true
  · have ha2 := (isDigitByte_iff a).mp ha
    have h1 : a ≠ 45 := by omega
    have h2 : a ≠ 43 := by omega
    have h3 : ¬ (18446744073709551616 ≤ a - 48) := by omega
    have h4 : ¬ (9223372036854775808 ≤ a - 48) := by omega
    simp [Atoi, atoiDigits, ha, h1, h2, h3, h4]
  · by_cases h1 : a = 45
    · simp [Atoi, h1, isDigitByte]
    · by_cases h2 : a = 43
      · simp [Atoi, h2, isDigitByte]
      · simp [Atoi, atoiDigits, ha, h1, h2]

theorem Atoi_two (a b : Nat) :
    Atoi [a, b] =
      if isDigitByte b = true then
        if isDigitByte a = true then Except.ok (((a - 48) * 10 + (b - 48) : Nat) : Int)
        else if a = 45 then Except.ok (-((b - 48 : Nat) : Int))
        else if a = 43 then Except.ok ((b - 48 : Nat) : Int)
        else Except.error ⟨[a, b], NumErrKind.ErrSyntax⟩
      else Except.error ⟨[a, b], NumErrKind.ErrSyntax⟩ := by
  by_cases hb : isDigitByte b = true
  · have hb2 := (isDigitByte_iff b).mp hb
    have h5 : ¬ (18446744073709551616 ≤ b - 48) := by omega
    have h6 : ¬ (9223372036854775808 < b - 48) := by omega
    have h7 : ¬ (9223372036854775808 ≤ b - 48) := by omega
    by_cases ha : isDigitByte a = true
    · have ha2 := (isDigitByte_iff a).mp ha
      have h1 : a ≠ 45 := by omega
      have h2 : a ≠ 43 := by omega
      have h3 : ¬ (18446744073709551616 ≤ a - 48) := by omega
      have h4 : ¬ (18446744073709551616 ≤ (a - 48) * 10 + (b - 48)) := by omega
      have h8 : ¬ (9223372036854775808 ≤ (a - 48) * 10 + (b - 48)) := by omega
      simp [Atoi, atoiDigits, ha, hb, h1, h2, h3, h4, h8]
    · by_cases h1 : a = 45
      · subst h1
        simp [Atoi, atoiDigits, ha, hb, h5, h6]
      · by_cases h2 : a = 43
        · subst h2
          simp [Atoi, atoiDigits, ha, hb, h5, h7]
        · simp [Atoi, atoiDigits, ha, hb, h1, h2]
  · by_cases ha : isDigitByte a = true
    · have ha2 := (isDigitByte_iff a).mp ha
      have h1 : a ≠ 45 := by omega
      have h2 : a ≠ 43 := by omega
      have h3 : ¬ (18446744073709551616 ≤ a - 48) := by omega
      simp [Atoi, atoiDigits, ha, hb, h1, h2, h3]
    · by_cases h1 : a = 45
      · simp [Atoi, atoiDigits, hb, h1]
      · by_cases h2 : a = 43
        · simp [Atoi, atoiDigits, hb, h2]
        · simp [Atoi, atoiDigits, ha, hb, h1, h2]

theorem timeParse_six (a0 a1 a2 a3 a4 a5 : Nat) :
    timeParse [a0, a1, a2, a3, a4, a5] =
      match timeAtoi [a0, a1] with
      | none => Except.error
          ⟨layout060102, [a0, a1, a2, a3, a4, a5], ascii "06", [a0, a1, a2, a3, a4, a5],
            ParseMsg.bad⟩
      | some y =>
        if isDigitByte a2 = true ∧ isDigitByte a3 = true then
          if (a2 - 48) * 10 + (a3 - 48) ≤ 0 ∨ 12 < (a2 - 48) * 10 + (a3 - 48) then
            Except.error ⟨layout060102, [a0, a1, a2, a3, a4, a5], ascii "01", [a4, a5],
              ParseMsg.monthOutOfRange⟩
          else if isDigitByte a4 = true ∧ isDigitByte a5 = true then
            if (a4 - 48) * 10 + (a5 - 48) < 1 ∨
                (a4 - 48) * 10 + (a5 - 48) >
                  daysIn ((a2 - 48) * 10 + (a3 - 48)) (if 69 ≤ y then y + 1900 else y + 2000) then
              Except.error ⟨layout060102, [a0, a1, a2, a3, a4, a5], [], [],
                ParseMsg.dayOutOfRange⟩
            else
              Except.ok ⟨if 69 ≤ y then y + 1900 else y + 2000, (a2 - 48) * 10 + (a3 - 48),
                (a4 - 48) * 10 + (a5 - 48)⟩
          else Except.error ⟨layout060102, [a0, a1, a2, a3, a4, a5], ascii "02", [a4, a5],
            ParseMsg.bad⟩
        else Except.error ⟨layout060102, [a0, a1, a2, a3, a4, a5], ascii "01",
          [a2, a3, a4, a5], ParseMsg.bad⟩ := by
  simp only [timeParse, List.take, List.drop, List.length, getnum_fixed]
  cases timeAtoi [a0, a1] with
  | none => simp
  | some y =>
    by_cases h23 : isDigitByte a2 = true ∧ isDigitByte a3 = true
    · by_cases h45 : isDigitByte a4 = true ∧ isDigitByte a5 = true
      · simp [h23, h45, getnum_fixed]
      · simp [h23, h45, getnum_fixed]
    · simp [h23]

theorem decodeNRIC_twelve (a0 a1 a2 a3 a4 a5 a6 a7 a8 a9 a10 a11 : Nat) :
    decodeNRIC [a0, a1, a2, a3, a4, a5, a6, a7, a8, a9, a10, a11] =
      Outcome.returns [[a0, a1, a2, a3, a4, a5], [a6, a7], [a8, a9, a10], [a11]] := rfl

theorem length_twelve (s : GoString) (h : s.length = 12) :
    ∃ a0 a1 a2 a3 a4 a5 a6 a7 a8 a9 a10 a11 : Nat,
      s = [a0, a1, a2, a3, a4, a5, a6, a7, a8, a9, a10, a11] := by
  rcases s with _ | ⟨a0, _ | ⟨a1, _ | ⟨a2, _ | ⟨a3, _ | ⟨a4, _ | ⟨a5, _ | ⟨a6, _ | ⟨a7,
    _ | ⟨a8, _ | ⟨a9, _ | ⟨a10, _ | ⟨a11, t⟩⟩⟩⟩⟩⟩⟩⟩⟩⟩⟩⟩ <;>
    first
    | (simp at h; done)
    | skip
  simp at h
  subst h
  exact ⟨a0, a1, a2, a3, a4, a5, a6, a7, a8, a9, a10, a11, rfl⟩

/-- When the input decomposes, `NewMyKAD` yields a record exactly when the date, the place
code and the gender digit parse and the code is valid; the record is then determined. -/
theorem NewMyKAD_ok_iff (D : Decls) (nric s0 s1 s2 s3 : GoString) (r : MyKAD D)
    (hd : decodeNRIC nric = Outcome.returns [s0, s1, s2, s3]) :
    NewMyKAD D nric = Outcome.returns (Except.ok r) ↔
      ∃ (dob : Date) (pob g : Int),
        timeParse s0 = Except.ok dob ∧ Atoi s1 = Except.ok pob ∧ D.valid pob = true ∧
        Atoi s3 = Except.ok g ∧
        r = { NRIC := nric
              DateOfBirth := dob
              PlaceOfBirth := (classify D pob).2
              CitizenType := (classify D pob).1
              Gender := if g.tmod 2 = 0 then D.GenderFemale else D.GenderMale } := by
  simp only [NewMyKAD, hd, classify]
  cases ht : timeParse s0 with
  | error e => simp
  | ok dob =>
    cases hp : Atoi s1 with
    | error e => simp
    | ok pob =>
      cases hv : D.valid pob with
      | false => simp [hv]
      | true =>
        cases hg : Atoi s3 with
        | error e => simp [hv]
        | ok g =>
          simp only [hv, Bool.not_true, Bool.false_eq_true, if_false]
          constructor
          · intro h
            injection h with h
            injection h with h
            exact ⟨dob, pob, g, rfl, rfl, hv, rfl, h.symm⟩
          · rintro ⟨dob2, pob2, g2, h1, h2, _, h4, h5⟩
            injection h1 with h1
            injection h2 with h2
            injection h4 with h4
            subst h1 h2 h4
            rw [h5]

/-- When the input decomposes, `NewMyKAD` returns, and it returns an error exactly when one of
the three parsers fails or the code is not valid. -/
theorem NewMyKAD_error_of (D : Decls) (nric s0 s1 s2 s3 : GoString)
    (hd : decodeNRIC nric = Outcome.returns [s0, s1, s2, s3])
    (h : (∃ e, timeParse s0 = Except.error e) ∨ (∃ e, Atoi s1 = Except.error e) ∨
      (∃ e, Atoi s3 = Except.error e)) :
    ∃ e, NewMyKAD D nric = Outcome.returns (Except.error e) := by
  simp only [NewMyKAD, hd]
  cases ht : timeParse s0 with
  | error e => exact ⟨_, rfl⟩
  | ok dob =>
    cases hp : Atoi s1 with
    | error e => exact ⟨_, rfl⟩
    | ok pob =>
      cases hv : D.valid pob with
      | false => exact ⟨Error.invalidPlaceOfBirth, by simp [hv]⟩
      | true =>
        cases hg : Atoi s3 with
        | error e => exact ⟨Error.parsingGender e, by simp [hv]⟩
        | ok g =>
          rcases h with ⟨e, he⟩ | ⟨e, he⟩ | ⟨e, he⟩
          · rw [ht] at he; cases he
          · rw [hp] at he; cases he
          · rw [hg] at he; cases he

theorem spell_length (d : GoString) (h1 h2 : Bool) (hd : d.length = 12) :
    (spell d h1 h2).length = 12 + h1.toNat + h2.toNat := by
  obtain ⟨a0, a1, a2, a3, a4, a5, a6, a7, a8, a9, a10, a11, rfl⟩ := length_twelve d hd
  cases h1 <;> cases h2 <;> rfl

theorem PunctuatedForm_length (s : GoString) (h : PunctuatedForm s) : 12 ≤ s.length := by
  obtain ⟨d, h1, h2, hd, _, rfl⟩ := h
  rw [spell_length d h1 h2 hd]
  omega

/-- Two inputs that decompose alike are treated alike, up to the stored text. -/
theorem NewMyKAD_congr (D : Decls) (a b : GoString) (h : decodeNRIC a = decodeNRIC b) :
    parsedFields (NewMyKAD D a) = parsedFields (NewMyKAD D b) := by
  simp only [NewMyKAD, h]
  cases decodeNRIC b with
  | panics => rfl
  | returns l =>
    rcases l with _ | ⟨s0, _ | ⟨s1, _ | ⟨s2, _ | ⟨s3, _ | ⟨s4, t⟩⟩⟩⟩⟩ <;> try rfl
    simp only
    cases timeParse s0 with
    | error e => rfl
    | ok dob =>
      cases Atoi s1 with
      | error e => rfl
      | ok pob =>
        cases hv : D.valid pob with
        | false => simp [hv]
        | true =>
          cases Atoi s3 with
          | error e => simp [hv]
          | ok g => simp [hv, parsedFields]

/-- Every spelling of twelve digits decomposes into the same four fields. -/
theorem decodeNRIC_spell (d : GoString) (hlen : d.length = 12)
    (hdig : ∀ b ∈ d, isDigitByte b = true) (h1 h2 : Bool) :
    decodeNRIC (spell d h1 h2) =
      Outcome.returns [slice d 0 6, slice d 6 8, slice d 8 11, d.drop 11] := by
  obtain ⟨a0, a1, a2, a3, a4, a5, a6, a7, a8, a9, a10, a11, rfl⟩ := length_twelve d hlen
  simp only [List.mem_cons, List.mem_singleton, forall_eq_or_imp, forall_eq] at hdig
  obtain ⟨d0, d1, d2, d3, d4, d5, d6, d7, d8, d9, d10, d11, _⟩ := hdig
  have n6 : a6 ≠ 45 := by have := (isDigitByte_iff a6).mp d6; omega
  have n8 : a8 ≠ 45 := by have := (isDigitByte_iff a8).mp d8; omega
  cases h1 <;> cases h2 <;>
    simp [spell, slice, decodeNRIC, FindStringSubmatch, digitsN, optHyphen, sliceFrom,
      d0, d1, d2, d3, d4, d5, d6, d7, d8, d9, d10, d11, n6, n8]

/-! ## Decoding failures -/

/-- C1 (defect of the code). An input whose length is not 12 and which is not in the
punctuated form makes `decodeNRIC` panic: the failed match is nil and `nil[1:]` is out of
range. So `NewMyKAD` panics there; it does not return the "invalid mykad number" error,
and its branch `len(s) != 4` is not reached. -/
theorem NewMyKAD_panics_off_form (D : Decls) (s : GoString) (hlen : s.length ≠ 12)
    (hform : ¬ PunctuatedForm s) :
    decodeNRIC s = Outcome.panics ∧ NewMyKAD D s = Outcome.panics := by
  have hnil : FindStringSubmatch s = [] := by
    by_contra hne
    exact hform (FindStringSubmatch_form s hne)
  have hdec : decodeNRIC s = Outcome.panics := by
    simp [decodeNRIC, hlen, hnil, sliceFrom]
  exact ⟨hdec, by simp [NewMyKAD, hdec]⟩

theorem NewMyKAD_panics_off_form_witness :
    (ascii "880808-14").length ≠ 12 ∧ ¬ PunctuatedForm (ascii "880808-14") ∧
      decodeNRIC (ascii "880808-14") = Outcome.panics ∧
      NewMyKAD sampleDecls (ascii "880808-14") = Outcome.panics :=
  have hform : ¬ PunctuatedForm (ascii "880808-14") := fun h =>
    absurd (PunctuatedForm_length _ h) (by decide)
  ⟨by decide, hform,
    NewMyKAD_panics_off_form sampleDecls (ascii "880808-14") (by decide) hform⟩

/-- C2 (counterexample). A letter in the serial positions of a 12-byte input is not
rejected: with code 14 valid, "880808145x21" yields a record. -/
theorem NewMyKAD_accepts_letter_in_serial :
    NewMyKAD sampleDecls (ascii "880808145x21") =
      Outcome.returns (Except.ok
        { NRIC := ascii "880808145x21"
          DateOfBirth := ⟨1988, 8, 8⟩
          PlaceOfBirth := ⟨ascii "Malaysia", ascii "Selangor"⟩
          CitizenType := sampleDecls.CitizenTypeMalaysian
          Gender := sampleDecls.GenderMale }) := by
  rfl

theorem timeParse_six_ok (a0 a1 a2 a3 a4 a5 : Nat) (dob : Date)
    (h : timeParse [a0, a1, a2, a3, a4, a5] = Except.ok dob) :
    (isDigitByte a0 = true ∨ isSignByte a0 = true) ∧ isDigitByte a1 = true ∧
      isDigitByte a2 = true ∧ isDigitByte a3 = true ∧ isDigitByte a4 = true ∧
      isDigitByte a5 = true := by
  rw [timeParse_six, timeAtoi_two] at h
  by_cases h1 : isDigitByte a1 = true
  · by_cases h23 : isDigitByte a2 = true ∧ isDigitByte a3 = true
    · by_cases h45 : isDigitByte a4 = true ∧ isDigitByte a5 = true
      · refine ⟨?_, h1, h23.1, h23.2, h45.1, h45.2⟩
        by_cases h0 : isDigitByte a0 = true
        · exact Or.inl h0
        · right
          by_cases e1 : a0 = 45
          · simp [isSignByte, e1]
          · by_cases e2 : a0 = 43
            · simp [isSignByte, e2]
            · simp [h1, h0, e1, e2] at h
      · exfalso
        simp only [h1, h23, h45] at h
        split at h
        · cases h
        · split_ifs at h <;> contradiction
    · exfalso
      simp only [h1, h23] at h
      split at h
      · cases h
      · split_ifs at h <;> contradiction
  · simp [h1] at h

theorem Atoi_two_ok (a b : Nat) (c : Int) (h : Atoi [a, b] = Except.ok c) :
    (isDigitByte a = true ∨ isSignByte a = true) ∧ isDigitByte b = true := by
  rw [Atoi_two] at h
  by_cases hb : isDigitByte b = true
  · refine ⟨?_, hb⟩
    by_cases h0 : isDigitByte a = true
    · exact Or.inl h0
    · right
      by_cases e1 : a = 45
      · simp [isSignByte, e1]
      · by_cases e2 : a = 43
        · simp [isSignByte, e2]
        · simp [hb, h0, e1, e2] at h
  · simp [hb] at h

theorem Atoi_one_ok (a : Nat) (c : Int) (h : Atoi [a] = Except.ok c) :
    isDigitByte a = true ∧ c = ((a - 48 : Nat) : Int) := by
  rw [Atoi_one] at h
  by_cases ha : isDigitByte a = true
  · simp [ha] at h
    exact ⟨ha, h.symm⟩
  · simp [ha] at h

theorem except_error_or_ok {ε α : Type} (x : Except ε α) :
    (∃ e, x = Except.error e) ∨ ∃ a, x = Except.ok a := by
  cases x with
  | error e => exact Or.inl ⟨e, rfl⟩
  | ok a => exact Or.inr ⟨a, rfl⟩

/-- C2 (as amended). On a 12-byte input, a byte other than an ASCII digit at one of the
positions 1 to 5, 7 or 11, or a byte that is neither a digit nor a sign at position 0 or 6,
makes `NewMyKAD` return an error and no record. (Positions 8 to 10 are not inspected.) -/
theorem NewMyKAD_twelve_rejects (D : Decls) (s : GoString) (hlen : s.length = 12)
    (hbad : (∃ i ∈ [1, 2, 3, 4, 5, 7, 11], isDigitByte (s.getD i 0) = false) ∨
      (∃ i ∈ [0, 6], isDigitByte (s.getD i 0) = false ∧ isSignByte (s.getD i 0) = false)) :
    ∃ e, NewMyKAD D s = Outcome.returns (Except.error e) := by
  obtain ⟨a0, a1, a2, a3, a4, a5, a6, a7, a8, a9, a10, a11, rfl⟩ := length_twelve s hlen
  apply NewMyKAD_error_of D _ _ _ _ _ (decodeNRIC_twelve a0 a1 a2 a3 a4 a5 a6 a7 a8 a9 a10 a11)
  rcases except_error_or_ok (timeParse [a0, a1, a2, a3, a4, a5]) with ht | ⟨dob, ht⟩
  · exact Or.inl ht
  rcases except_error_or_ok (Atoi [a6, a7]) with hp | ⟨c, hp⟩
  · exact Or.inr (Or.inl hp)
  rcases except_error_or_ok (Atoi [a11]) with hg | ⟨g, hg⟩
  · exact Or.inr (Or.inr hg)
  exfalso
  obtain ⟨t0, t1, t2, t3, t4, t5⟩ := timeParse_six_ok _ _ _ _ _ _ dob ht
  obtain ⟨p6, p7⟩ := Atoi_two_ok _ _ c hp
  obtain ⟨g11, _⟩ := Atoi_one_ok _ g hg
  simp only [List.mem_cons, List.mem_singleton, List.not_mem_nil, or_false, exists_eq_or_imp,
    exists_eq_left, List.getD_cons_zero, List.getD_cons_succ] at hbad
  simp [t1, t2, t3, t4, t5, p7, g11] at hbad
  rcases hbad with ⟨h, h2⟩ | ⟨h, h2⟩
  · rcases t0 with t0 | t0
    · simp [t0] at h
    · simp [t0] at h2
  · rcases p6 with p6 | p6
    · simp [p6] at h
    · simp [p6] at h2

theorem NewMyKAD_twelve_rejects_witness :
    (ascii "8808081x5021").length = 12 ∧
      ∃ e, NewMyKAD sampleDecls (ascii "8808081x5021") = Outcome.returns (Except.error e) :=
  ⟨by decide, NewMyKAD_twelve_rejects sampleDecls (ascii "8808081x5021") (by decide)
    (Or.inl ⟨7, by decide, by decide⟩)⟩

/-- C3 (counterexample). The 12-byte input "88O8O8145029", with the letter O in the date
positions, is decomposed and fails in the date step: the error is the date-parse error on
the month element, not "invalid mykad number". -/
theorem NewMyKAD_letter_in_date :
    NewMyKAD sampleDecls (ascii "88O8O8145029") =
      Outcome.returns (Except.error (Error.parsingDate
        { Layout := ascii "060102"
          Value := ascii "88O8O8"
          LayoutElem := ascii "01"
          ValueElem := ascii "O8O8"
          Message := ParseMsg.bad })) := by
  rfl

/-- C3 (as amended). On a 12-byte input, a byte other than an ASCII digit at one of the date
positions 1 to 5, or a byte that is neither a digit nor a sign at position 0, makes
`NewMyKAD` return the date-parse error (so not the "invalid mykad number" error). -/
theorem NewMyKAD_twelve_date_error (D : Decls) (s : GoString) (hlen : s.length = 12)
    (hbad : (∃ i ∈ [1, 2, 3, 4, 5], isDigitByte (s.getD i 0) = false) ∨
      (isDigitByte (s.getD 0 0) = false ∧ isSignByte (s.getD 0 0) = false)) :
    ∃ pe, NewMyKAD D s = Outcome.returns (Except.error (Error.parsingDate pe)) := by
  obtain ⟨a0, a1, a2, a3, a4, a5, a6, a7, a8, a9, a10, a11, rfl⟩ := length_twelve s hlen
  rcases except_error_or_ok (timeParse [a0, a1, a2, a3, a4, a5]) with ⟨pe, ht⟩ | ⟨dob, ht⟩
  · exact ⟨pe, by simp [NewMyKAD, decodeNRIC_twelve, ht]⟩
  · exfalso
    obtain ⟨t0, t1, t2, t3, t4, t5⟩ := timeParse_six_ok _ _ _ _ _ _ dob ht
    simp only [List.mem_cons, List.mem_singleton, List.not_mem_nil, or_false, exists_eq_or_imp,
      exists_eq_left, List.getD_cons_zero, List.getD_cons_succ] at hbad
    simp [t1, t2, t3, t4, t5] at hbad
    rcases t0 with t0 | t0
    · simp [t0] at hbad
    · simp [t0] at hbad

theorem NewMyKAD_twelve_date_error_witness :
    (ascii "88O8O8145029").length = 12 ∧
      ∃ pe, NewMyKAD sampleDecls (ascii "88O8O8145029") =
        Outcome.returns (Except.error (Error.parsingDate pe)) :=
  ⟨by decide, NewMyKAD_twelve_date_error sampleDecls (ascii "88O8O8145029") (by decide)
    (Or.inl ⟨2, by decide, by decide⟩)⟩

/-! ## The end-to-end scenario -/

/-- C4 (counterexample). The text "880808-14-50291" has thirteen digits and fifteen bytes:
it is neither 12 bytes long nor in the punctuated form, and `NewMyKAD` panics on it, also
with a table in which 14 is the Malaysian state Selangor. -/
theorem NewMyKAD_scenario_thirteen_digits :
    (ascii "880808-14-50291").length = 15 ∧ sampleDecls.valid 14 = true ∧
      sampleDecls.isMalaysianCode 14 = true ∧ sampleDecls.regions 14 = ascii "Selangor" ∧
      NewMyKAD sampleDecls (ascii "880808-14-50291") = Outcome.panics :=
  ⟨rfl, rfl, rfl, rfl, rfl⟩

/-- C4 (as amended). With a table in which 14 is a valid Malaysian code labelled "Selangor",
the twelve-digit text "880808-14-5029" yields the record with date of birth 1988-08-08,
place of birth Malaysia / Selangor, citizen type Malaysian and gender Male. -/
theorem NewMyKAD_scenario_selangor (D : Decls) (hv : D.valid 14 = true)
    (hm : D.isMalaysianCode 14 = true) (hr : D.regions 14 = ascii "Selangor") :
    NewMyKAD D (ascii "880808-14-5029") =
      Outcome.returns (Except.ok
        { NRIC := ascii "880808-14-5029"
          DateOfBirth := ⟨1988, 8, 8⟩
          PlaceOfBirth := ⟨ascii "Malaysia", ascii "Selangor"⟩
          CitizenType := D.CitizenTypeMalaysian
          Gender := D.GenderMale }) := by
  have hd : decodeNRIC (ascii "880808-14-5029") =
      Outcome.returns [ascii "880808", ascii "14", ascii "502", ascii "9"] := by rfl
  refine (NewMyKAD_ok_iff D _ _ _ _ _ _ hd).mpr ⟨⟨1988, 8, 8⟩, 14, 9, by rfl, by rfl, hv, by rfl, ?_⟩
  have hg : Int.tmod 9 2 ≠ 0 := by decide
  simp [classify, hm, hr, hg]

theorem NewMyKAD_scenario_selangor_witness :
    NewMyKAD sampleDecls (ascii "880808-14-5029") =
      Outcome.returns (Except.ok
        { NRIC := ascii "880808-14-5029"
          DateOfBirth := ⟨1988, 8, 8⟩
          PlaceOfBirth := ⟨ascii "Malaysia", ascii "Selangor"⟩
          CitizenType := sampleDecls.CitizenTypeMalaysian
          Gender := sampleDecls.GenderMale }) :=
  NewMyKAD_scenario_selangor sampleDecls rfl rfl rfl

/-! ## Insensitivity to the hyphens -/

theorem NewMyKAD_returns_of_decode (D : Decls) (nric : GoString) (l : List GoString)
    (hd : decodeNRIC nric = Outcome.returns l) : NewMyKAD D nric ≠ Outcome.panics := by
  simp only [NewMyKAD, hd]
  rcases l with _ | ⟨s0, _ | ⟨s1, _ | ⟨s2, _ | ⟨s3, _ | ⟨s4, t⟩⟩⟩⟩⟩ <;> try simp
  cases timeParse s0 with
  | error e => simp
  | ok dob =>
    cases Atoi s1 with
    | error e => simp
    | ok pob =>
      cases hv : D.valid pob with
      | false => simp [hv]
      | true =>
        cases Atoi s3 with
        | error e => simp [hv]
        | ok g => simp [hv]

/-- C5. For twelve ASCII digits `d`, each of the four spellings (hyphen after digit 6 or
not, hyphen after digit 8 or not) is decomposed by `decodeNRIC` into the fields `d[0:6]`,
`d[6:8]`, `d[8:11]`, `d[11:]`; `NewMyKAD` returns on each, and on any two spellings it
returns the same error or records with the same date of birth, place of birth, citizen type
and gender. -/
theorem NewMyKAD_spellings_agree (D : Decls) (d : GoString) (hlen : d.length = 12)
    (hdig : ∀ b ∈ d, isDigitByte b = true) (h1 h2 k1 k2 : Bool) :
    decodeNRIC (spell d h1 h2) =
        Outcome.returns [slice d 0 6, slice d 6 8, slice d 8 11, d.drop 11] ∧
      NewMyKAD D (spell d h1 h2) ≠ Outcome.panics ∧
      parsedFields (NewMyKAD D (spell d h1 h2)) = parsedFields (NewMyKAD D (spell d k1 k2)) :=
  ⟨decodeNRIC_spell d hlen hdig h1 h2,
    NewMyKAD_returns_of_decode D _ _ (decodeNRIC_spell d hlen hdig h1 h2),
    NewMyKAD_congr D _ _
      ((decodeNRIC_spell d hlen hdig h1 h2).trans (decodeNRIC_spell d hlen hdig k1 k2).symm)⟩

theorem NewMyKAD_spellings_agree_witness :
    spell (ascii "880808145029") true true = ascii "880808-14-5029" ∧
      spell (ascii "880808145029") false false = ascii "880808145029" ∧
      decodeNRIC (ascii "880808-14-5029") =
        Outcome.returns [ascii "880808", ascii "14", ascii "502", ascii "9"] ∧
      NewMyKAD sampleDecls (ascii "880808-14-5029") ≠ Outcome.panics ∧
      parsedFields (NewMyKAD sampleDecls (ascii "880808-14-5029")) =
        parsedFields (NewMyKAD sampleDecls (ascii "880808145029")) :=
  ⟨rfl, rfl,
    NewMyKAD_spellings_agree sampleDecls (ascii "880808145029") (by decide) (by decide)
      true true false false⟩

/-! ## Lemmas on formatting -/

theorem digitsLoop_lt (k u : Nat) (acc : GoString) (h : u < 10) :
    digitsLoop (k + 1) u acc = (48 + u) :: acc := by
  have h2 : ¬ 10 ≤ u := by omega
  simp [digitsLoop, h2]

theorem digitsLoop_ge (k u : Nat) (acc : GoString) (h : 10 ≤ u) :
    digitsLoop (k + 1) u acc = digitsLoop k (u / 10) ((48 + u % 10) :: acc) := by
  simp [digitsLoop, h]

theorem pad_two (u : Nat) (h : u < 100) :
    List.replicate (2 - (natDigits u).length) 48 ++ natDigits u = [48 + u / 10, 48 + u % 10] := by
  unfold natDigits
  by_cases h1 : u < 10
  · rw [digitsLoop_lt 19 u [] h1]
    have e1 : u / 10 = 0 := by omega
    have e2 : u % 10 = u := by omega
    simp [e1, e2, List.replicate]
  · rw [digitsLoop_ge 19 u [] (by omega), digitsLoop_lt 18 (u / 10) _ (by omega)]
    simp

theorem pad_four (u : Nat) (h : u < 10000) :
    List.replicate (4 - (natDigits u).length) 48 ++ natDigits u =
      [48 + u / 1000, 48 + u / 100 % 10, 48 + u / 10 % 10, 48 + u % 10] := by
  unfold natDigits
  by_cases h1 : u < 10
  · rw [digitsLoop_lt 19 u [] h1]
    have e1 : u / 1000 = 0 := by omega
    have e2 : u / 100 = 0 := by omega
    have e3 : u / 10 = 0 := by omega
    have e4 : u % 10 = u := by omega
    simp [e1, e2, e3, e4, List.replicate]
  · rw [digitsLoop_ge 19 u [] (by omega)]
    by_cases h2 : u < 100
    · rw [digitsLoop_lt 18 (u / 10) _ (by omega)]
      have e1 : u / 1000 = 0 := by omega
      have e2 : u / 100 = 0 := by omega
      have e3 : u / 10 % 10 = u / 10 := by omega
      simp [e1, e2, e3, List.replicate]
    · rw [digitsLoop_ge 18 (u / 10) _ (by omega)]
      by_cases h3 : u < 1000
      · rw [digitsLoop_lt 17 (u / 10 / 10) _ (by omega)]
        have e1 : u / 1000 = 0 := by omega
        have e2 : u / 100 % 10 = u / 10 / 10 := by omega
        simp [e1, e2, List.replicate]
      · rw [digitsLoop_ge 17 (u / 10 / 10) _ (by omega),
          digitsLoop_lt 16 (u / 10 / 10 / 10) _ (by omega)]
        have e1 : u / 1000 = u / 10 / 10 / 10 := by omega
        have e2 : u / 100 % 10 = u / 10 / 10 % 10 := by omega
        simp [e1, e2]

theorem appendInt_two (b : GoString) (u : Nat) (h : u < 100) :
    appendInt b (u : Int) 2 = b ++ [48 + u / 10, 48 + u % 10] := by
  have h0 : ¬ ((u : Int) < 0) := by omega
  simp only [appendInt, h0, if_false, Int.natAbs_ofNat, List.append_assoc, pad_two u h]

theorem sprintfZeroPad_two (u : Nat) (h : u < 100) :
    sprintfZeroPad 2 (u : Int) = [48 + u / 10, 48 + u % 10] := by
  have h0 : ¬ ((u : Int) < 0) := by omega
  simp only [sprintfZeroPad, h0, if_false, Int.natAbs_ofNat, pad_two u h]

theorem sprintfZeroPad_four (u : Nat) (h : u < 10000) :
    sprintfZeroPad 4 (u : Int) =
      [48 + u / 1000, 48 + u / 100 % 10, 48 + u / 10 % 10, 48 + u % 10] := by
  have h0 : ¬ ((u : Int) < 0) := by omega
  simp only [sprintfZeroPad, h0, if_false, Int.natAbs_ofNat, pad_four u h]

theorem isDigitByte_add (k : Nat) (h : k < 10) : isDigitByte (48 + k) = true := by
  rw [isDigitByte_iff]; omega

theorem daysIn_le (m : Nat) (y : Int) (h1 : 1 ≤ m) (h2 : m ≤ 12) : daysIn m y ≤ 31 := by
  unfold daysIn
  split
  · omega
  · interval_cases m <;> simp [daysBefore]

/-! ## Lemmas on the date step -/

theorem isLeap_iff (y : Int) : isLeap y = true ↔ LeapYear y := by
  have e : ∀ k : Int, y.tmod k = 0 ↔ y % k = 0 := fun k =>
    (Int.dvd_iff_tmod_eq_zero).symm.trans Int.dvd_iff_emod_eq_zero
  simp [isLeap, LeapYear, e]

theorem daysIn_eq_monthLength (m : Nat) (y : Int) (h1 : 1 ≤ m) (h2 : m ≤ 12) :
    daysIn m y = monthLength y m := by
  unfold daysIn monthLength
  by_cases hl : LeapYear y
  · have hl2 := (isLeap_iff y).mpr hl
    interval_cases m <;> simp [daysBefore, hl, hl2]
  · have hl2 : isLeap y = false := by
      rw [← Bool.not_eq_true, isLeap_iff]; exact hl
    interval_cases m <;> simp [daysBefore, hl, hl2]

/-- The date step on a field of six digits. -/
theorem timeParse_six_digits (a0 a1 a2 a3 a4 a5 : Nat)
    (h0 : isDigitByte a0 = true) (h1 : isDigitByte a1 = true) (h2 : isDigitByte a2 = true)
    (h3 : isDigitByte a3 = true) (h4 : isDigitByte a4 = true) (h5 : isDigitByte a5 = true) :
    timeParse [a0, a1, a2, a3, a4, a5] =
      if twoDigit a2 a3 ≤ 0 ∨ 12 < twoDigit a2 a3 then
        Except.error ⟨layout060102, [a0, a1, a2, a3, a4, a5], ascii "01", [a4, a5],
          ParseMsg.monthOutOfRange⟩
      else if twoDigit a4 a5 < 1 ∨
          twoDigit a4 a5 > daysIn (twoDigit a2 a3) (pivotYear (twoDigit a0 a1)) then
        Except.error ⟨layout060102, [a0, a1, a2, a3, a4, a5], [], [], ParseMsg.dayOutOfRange⟩
      else Except.ok ⟨pivotYear (twoDigit a0 a1), twoDigit a2 a3, twoDigit a4 a5⟩ := by
  rw [timeParse_six, timeAtoi_two]
  simp only [h0, h1, h2, h3, h4, h5, if_true, and_self, twoDigit, pivotYear]

/-- The date step on a field of six digits succeeds exactly on the calendar dates. -/
theorem timeParse_six_digits_iff (a0 a1 a2 a3 a4 a5 : Nat)
    (h0 : isDigitByte a0 = true) (h1 : isDigitByte a1 = true) (h2 : isDigitByte a2 = true)
    (h3 : isDigitByte a3 = true) (h4 : isDigitByte a4 = true) (h5 : isDigitByte a5 = true) :
    (ValidYYMMDD (twoDigit a0 a1) (twoDigit a2 a3) (twoDigit a4 a5) →
        timeParse [a0, a1, a2, a3, a4, a5] =
          Except.ok ⟨pivotYear (twoDigit a0 a1), twoDigit a2 a3, twoDigit a4 a5⟩) ∧
      (¬ ValidYYMMDD (twoDigit a0 a1) (twoDigit a2 a3) (twoDigit a4 a5) →
        ∃ pe, timeParse [a0, a1, a2, a3, a4, a5] = Except.error pe) := by
  rw [timeParse_six_digits a0 a1 a2 a3 a4 a5 h0 h1 h2 h3 h4 h5]
  constructor
  · rintro ⟨m1, m2, d1, d2⟩
    rw [← daysIn_eq_monthLength _ _ m1 m2] at d2
    have c1 : ¬ (twoDigit a2 a3 ≤ 0 ∨ 12 < twoDigit a2 a3) := by omega
    have c2 : ¬ (twoDigit a4 a5 < 1 ∨
        twoDigit a4 a5 > daysIn (twoDigit a2 a3) (pivotYear (twoDigit a0 a1))) := by omega
    simp only [c1, c2, if_false]
  · intro hv
    by_cases c1 : twoDigit a2 a3 ≤ 0 ∨ 12 < twoDigit a2 a3
    · simp only [c1, if_true]; exact ⟨_, rfl⟩
    · by_cases c2 : twoDigit a4 a5 < 1 ∨
          twoDigit a4 a5 > daysIn (twoDigit a2 a3) (pivotYear (twoDigit a0 a1))
      · simp only [c1, c2, if_true, if_false]; exact ⟨_, rfl⟩
      · exfalso
        apply hv
        have m1 : 1 ≤ twoDigit a2 a3 := by omega
        have m2 : twoDigit a2 a3 ≤ 12 := by omega
        refine ⟨m1, m2, by omega, ?_⟩
        rw [← daysIn_eq_monthLength _ _ m1 m2]
        omega

/-! ## Generated numbers are accepted -/

theorem placeLoop_spec (D : Decls) : ∀ (draws : List Nat) (p q : Int),
    placeLoop D p draws = some q →
      D.valid q = true ∧ (q = p ∨ ∃ x ∈ draws, q = (x : Int)) := by
  intro draws
  induction draws with
  | nil =>
    intro p q h
    simp only [placeLoop] at h
    split at h
    · rename_i hv
      injection h with h
      subst h
      exact ⟨hv, Or.inl rfl⟩
    · cases h
  | cons x rest ih =>
    intro p q h
    simp only [placeLoop] at h
    split at h
    · rename_i hv
      injection h with h
      subst h
      exact ⟨hv, Or.inl rfl⟩
    · obtain ⟨hv, hq⟩ := ih (x : Int) q h
      refine ⟨hv, Or.inr ?_⟩
      rcases hq with hq | ⟨y, hy, hq⟩
      · exact ⟨x, List.mem_cons_self _ _, hq⟩
      · exact ⟨y, List.mem_cons_of_mem _ hy, hq⟩

theorem format060102_civil (d : Date) (h : IsCivilDate d) :
    format060102 d =
      [48 + d.year.natAbs % 100 / 10, 48 + d.year.natAbs % 100 % 10, 48 + d.month / 10,
        48 + d.month % 10, 48 + d.day / 10, 48 + d.day % 10] := by
  obtain ⟨hm1, hm2, hd1, hd2⟩ := h
  have hd3 := daysIn_le d.month d.year hm1 hm2
  have ey : (if d.year < 0 then -d.year else d.year).tmod 100 =
      ((d.year.natAbs % 100 : Nat) : Int) := by
    rw [Int.tmod_eq_emod (by split <;> omega) (by decide)]
    split <;> omega
  simp only [format060102]
  rw [ey, appendInt_two _ _ (by omega), appendInt_two _ _ (by omega),
    appendInt_two _ _ (by omega)]
  rfl

/-- A date of the calendar is still one after its year is cut to two digits and read back:
the day February 29 only occurs in years whose last two digits are divisible by 4, and the
two-digit year 00 is read as the leap year 2000. -/
theorem valid_after_pivot (d : Date) (h : IsCivilDate d) :
    ValidYYMMDD (d.year.natAbs % 100) d.month d.day := by
  obtain ⟨hm1, hm2, hd1, hd2⟩ := h
  refine ⟨hm1, hm2, hd1, ?_⟩
  rw [daysIn_eq_monthLength _ _ hm1 hm2] at hd2
  unfold monthLength at hd2 ⊢
  by_cases h2 : d.month = 2
  · simp only [h2, if_true] at hd2 ⊢
    by_cases hl : LeapYear d.year
    · have hl2 : LeapYear (pivotYear (d.year.natAbs % 100)) := by
        unfold LeapYear pivotYear at *
        split <;> omega
      simp only [hl2, if_true]
      simp only [hl, if_true] at hd2
      exact hd2
    · simp only [hl, if_false] at hd2
      split <;> omega
  · simp only [h2, if_false] at hd2 ⊢
    exact hd2

/-- C6. Every text `Generate` returns is accepted by `NewMyKAD`, whenever the outcomes of
the random source lie in their ranges (`rand.Intn(99)` below 99, `rand.Intn(9999)` below
9999) and the date of the sampled instant is a calendar date (of any year). -/
theorem NewMyKAD_Generate (D : Decls) (W : World) (str : GoString)
    (hgen : Generate D W = some (Outcome.returns str))
    (hdraws : ∀ x ∈ W.draws, x < 99) (hsn : W.intn9999 < 9999)
    (hdate : IsCivilDate (W.localDate (W.int63n + W.unixAddYears (-maxAge)))) :
    ∃ r, NewMyKAD D str = Outcome.returns (Except.ok r) := by
  simp only [Generate] at hgen
  split at hgen
  · cases hgen
  · cases hp : placeLoop D 0 W.draws with
    | none => simp [hp] at hgen
    | some p =>
      simp only [hp] at hgen
      injection hgen with hgen
      injection hgen with hgen
      obtain ⟨hv, hq⟩ := placeLoop_spec D W.draws 0 p hp
      obtain ⟨c, hc, hpc⟩ : ∃ c : Nat, c < 99 ∧ p = (c : Int) := by
        rcases hq with hq | ⟨x, hx, hq⟩
        · exact ⟨0, by decide, hq⟩
        · exact ⟨x, hdraws x hx, hq⟩
      subst hpc
      generalize hdd : W.localDate (W.int63n + W.unixAddYears (-maxAge)) = d at hdate hgen
      have hvalid := valid_after_pivot d hdate
      obtain ⟨hm1, hm2, hd1, hd2⟩ := hdate
      have hd3 := daysIn_le d.month d.year hm1 hm2
      rw [format060102_civil d ⟨hm1, hm2, hd1, hd2⟩, sprintfZeroPad_two c (by omega),
        sprintfZeroPad_four W.intn9999 (by omega)] at hgen
      generalize hyy : d.year.natAbs % 100 = yy at hgen hvalid
      have hyy2 : yy < 100 := by omega
      generalize W.intn9999 = sn at hgen hsn
      generalize d.month = mm at hgen hvalid hm1 hm2 hd2 hd3
      generalize d.day = dd at hgen hvalid hd1 hd2 hd3
      have hdec := decodeNRIC_spell
        [48 + yy / 10, 48 + yy % 10, 48 + mm / 10, 48 + mm % 10, 48 + dd / 10, 48 + dd % 10,
          48 + c / 10, 48 + c % 10, 48 + sn / 1000, 48 + sn / 100 % 10, 48 + sn / 10 % 10,
          48 + sn % 10] rfl
        (by
          intro b hb
          simp only [List.mem_cons, List.mem_singleton, List.not_mem_nil, or_false] at hb
          rcases hb with rfl | rfl | rfl | rfl | rfl | rfl | rfl | rfl | rfl | rfl | rfl | rfl <;>
            exact isDigitByte_add _ (by omega))
        true true
      have hstr : str = spell
          [48 + yy / 10, 48 + yy % 10, 48 + mm / 10, 48 + mm % 10, 48 + dd / 10, 48 + dd % 10,
            48 + c / 10, 48 + c % 10, 48 + sn / 1000, 48 + sn / 100 % 10, 48 + sn / 10 % 10,
            48 + sn % 10] true true := by
        rw [← hgen]; rfl
      rw [← hstr] at hdec
      have e1 : twoDigit (48 + yy / 10) (48 + yy % 10) = yy := by unfold twoDigit; omega
      have e2 : twoDigit (48 + mm / 10) (48 + mm % 10) = mm := by unfold twoDigit; omega
      have e3 : twoDigit (48 + dd / 10) (48 + dd % 10) = dd := by unfold twoDigit; omega
      have ht := (timeParse_six_digits_iff (48 + yy / 10) (48 + yy % 10) (48 + mm / 10)
        (48 + mm % 10) (48 + dd / 10) (48 + dd % 10)
        (isDigitByte_add _ (by omega)) (isDigitByte_add _ (by omega))
        (isDigitByte_add _ (by omega)) (isDigitByte_add _ (by omega))
        (isDigitByte_add _ (by omega)) (isDigitByte_add _ (by omega))).1
        (by rw [e1, e2, e3]; exact hvalid)
      have hpl : Atoi [48 + c / 10, 48 + c % 10] = Except.ok (c : Int) := by
        rw [Atoi_two]
        simp only [isDigitByte_add (c / 10) (by omega), isDigitByte_add (c % 10) (by omega),
          if_true]
        congr 2
        omega
      have hg : Atoi [48 + sn % 10] = Except.ok (((48 + sn % 10 - 48 : Nat)) : Int) := by
        rw [Atoi_one]
        simp only [isDigitByte_add (sn % 10) (by omega), if_true]
      exact ⟨_, (NewMyKAD_ok_iff D str _ _ _ _ _ hdec).mpr ⟨_, _, _, ht, hpl, hv, hg, rfl⟩⟩

theorem NewMyKAD_Generate_witness :
    Generate sampleDecls sampleWorld = some (Outcome.returns (ascii "000229-14-9998")) ∧
      ∃ r, NewMyKAD sampleDecls (ascii "000229-14-9998") = Outcome.returns (Except.ok r) :=
  ⟨rfl, NewMyKAD_Generate sampleDecls sampleWorld (ascii "000229-14-9998") rfl (by decide)
    (by decide) (by decide)⟩

/-! ## The fields of a record -/

theorem spell_plain (d : GoString) (h : d.length = 12) : spell d false false = d := by
  obtain ⟨a0, a1, a2, a3, a4, a5, a6, a7, a8, a9, a10, a11, rfl⟩ := length_twelve d h
  rfl

/-- What `decodeNRIC` returns, when it returns: the input is a spelling of twelve bytes and
the result is their four slices. -/
theorem decodeNRIC_shape (s : GoString) (l : List GoString)
    (h : decodeNRIC s = Outcome.returns l) :
    ∃ (d : GoString) (h1 h2 : Bool), d.length = 12 ∧ s = spell d h1 h2 ∧
      l = [slice d 0 6, slice d 6 8, slice d 8 11, d.drop 11] := by
  by_cases hlen : s.length = 12
  · refine ⟨s, false, false, hlen, (spell_plain s hlen).symm, ?_⟩
    simp only [decodeNRIC, hlen, if_true] at h
    injection h with h
    exact h.symm
  · have hne : FindStringSubmatch s ≠ [] := by
      intro hnil
      simp [decodeNRIC, hlen, hnil, sliceFrom] at h
    obtain ⟨d, h1, h2, hd, hdig, rfl⟩ := FindStringSubmatch_form s hne
    rw [decodeNRIC_spell d hd hdig h1 h2] at h
    injection h with h
    exact ⟨d, h1, h2, hd, rfl, h.symm⟩

theorem tmod_two_cast (k : Nat) : ((k : Int).tmod 2 = 0) ↔ k % 2 = 0 := by
  rw [show (2 : Int) = ((2 : Nat) : Int) from rfl, ← Int.ofNat_tmod]
  omega

/-- C7. On success the last byte of the input is a decimal digit, and the gender of the
record is Female exactly when that digit is even and Male exactly when it is odd (the two
constants being different values); a last digit 0 gives Female. -/
theorem NewMyKAD_gender (D : Decls) (s : GoString) (r : MyKAD D)
    (hok : NewMyKAD D s = Outcome.returns (Except.ok r))
    (hne : D.GenderMale ≠ D.GenderFemale) :
    ∃ b, s.getLast? = some b ∧ isDigitByte b = true ∧
      (r.Gender = D.GenderFemale ↔ (b - 48) % 2 = 0) ∧
      (r.Gender = D.GenderMale ↔ (b - 48) % 2 = 1) ∧
      (b = 48 → r.Gender = D.GenderFemale) := by
  cases hdec : decodeNRIC s with
  | panics => simp [NewMyKAD, hdec] at hok
  | returns l =>
    obtain ⟨d, h1, h2, hd, hs, hl⟩ := decodeNRIC_shape s l hdec
    obtain ⟨a0, a1, a2, a3, a4, a5, a6, a7, a8, a9, a10, a11, rfl⟩ := length_twelve d hd
    subst hl
    obtain ⟨dob, pob, g, _, _, _, hg, hr⟩ := (NewMyKAD_ok_iff D s _ _ _ _ r hdec).mp hok
    obtain ⟨hdig, hgv⟩ := Atoi_one_ok a11 g hg
    have hlast : s.getLast? = some a11 := by
      rw [hs]; cases h1 <;> cases h2 <;> rfl
    have hgen : r.Gender = if (a11 - 48) % 2 = 0 then D.GenderFemale else D.GenderMale := by
      rw [hr, hgv]
      simp only [tmod_two_cast]
    refine ⟨a11, hlast, hdig, ?_, ?_, ?_⟩
    · rw [hgen]
      by_cases hp : (a11 - 48) % 2 = 0
      · simp [hp]
      · simp [hp, hne]
    · rw [hgen]
      by_cases hp : (a11 - 48) % 2 = 0
      · simp [hp, hne.symm]
      · simp [hp]; omega
    · intro h48
      rw [hgen, h48]
      simp

theorem NewMyKAD_gender_witness :
    sampleDecls.GenderMale ≠ sampleDecls.GenderFemale ∧
      NewMyKAD sampleDecls (ascii "900101-74-0000") = Outcome.returns (Except.ok chinaRecord) ∧
      ∃ b, (ascii "900101-74-0000").getLast? = some b ∧ isDigitByte b = true ∧
        (chinaRecord.Gender = sampleDecls.GenderFemale ↔ (b - 48) % 2 = 0) ∧
        (chinaRecord.Gender = sampleDecls.GenderMale ↔ (b - 48) % 2 = 1) ∧
        (b = 48 → chinaRecord.Gender = sampleDecls.GenderFemale) :=
  ⟨Nat.zero_ne_one, rfl,
    NewMyKAD_gender sampleDecls (ascii "900101-74-0000") chinaRecord rfl Nat.zero_ne_one⟩

/-- C8. On success, with `c` the integer read from field 2, and a table in which a valid
code is Malaysian or foreign, the two citizen constants differ and no foreign code is
labelled "Malaysia": the citizen type is Malaysian exactly when `c` is a Malaysian code; the
country is "Malaysia" exactly when `c` is a Malaysian code, and the province is then the
label of `c`; and a Foreigner record has the label of `c` as country and no province. -/
theorem NewMyKAD_place (D : Decls) (s s0 s1 s2 s3 : GoString) (r : MyKAD D) (c : Int)
    (hok : NewMyKAD D s = Outcome.returns (Except.ok r))
    (hd : decodeNRIC s = Outcome.returns [s0, s1, s2, s3]) (hc : Atoi s1 = Except.ok c)
    (hvalid : ∀ k, D.valid k = true → D.isMalaysianCode k = true ∨ D.isForeignerCode k = true)
    (hconst : D.CitizenTypeMalaysian ≠ D.CitizenTypeForeigner)
    (hlabel : ∀ k, D.isForeignerCode k = true → D.regions k ≠ ascii "Malaysia") :
    (r.CitizenType = D.CitizenTypeMalaysian ↔ D.isMalaysianCode c = true) ∧
      (r.PlaceOfBirth.Country = ascii "Malaysia" ↔ D.isMalaysianCode c = true) ∧
      (D.isMalaysianCode c = true → r.PlaceOfBirth.Province = D.regions c) ∧
      (r.CitizenType = D.CitizenTypeForeigner →
        r.PlaceOfBirth.Country = D.regions c ∧ r.PlaceOfBirth.Province = []) := by
  obtain ⟨dob, pob, g, _, hp, hv, _, hr⟩ := (NewMyKAD_ok_iff D s _ _ _ _ r hd).mp hok
  rw [hc] at hp
  injection hp with hp
  subst hp
  subst hr
  by_cases hM : D.isMalaysianCode c = true
  · simp [classify, hM, hconst]
  · have hF : D.isForeignerCode c = true := by
      rcases hvalid c hv with h | h
      · exact absurd h hM
      · exact h
    have hl := hlabel c hF
    simp [classify, hM, hF, hconst.symm, hl]

theorem NewMyKAD_place_witness :
    NewMyKAD sampleDecls (ascii "900101-74-0000") = Outcome.returns (Except.ok chinaRecord) ∧
      (chinaRecord.CitizenType = sampleDecls.CitizenTypeMalaysian ↔
        sampleDecls.isMalaysianCode 74 = true) ∧
      (chinaRecord.PlaceOfBirth.Country = ascii "Malaysia" ↔
        sampleDecls.isMalaysianCode 74 = true) ∧
      (sampleDecls.isMalaysianCode 74 = true →
        chinaRecord.PlaceOfBirth.Province = sampleDecls.regions 74) ∧
      (chinaRecord.CitizenType = sampleDecls.CitizenTypeForeigner →
        chinaRecord.PlaceOfBirth.Country = sampleDecls.regions 74 ∧
          chinaRecord.PlaceOfBirth.Province = []) :=
  ⟨rfl, NewMyKAD_place sampleDecls (ascii "900101-74-0000") (ascii "900101") (ascii "74")
    (ascii "000") (ascii "0") chinaRecord 74 rfl rfl rfl
    (by intro k hk; simpa [sampleDecls] using hk)
    Nat.zero_ne_one
    (by
      intro k hk
      have hk2 : k = 74 := by simpa [sampleDecls] using hk
      subst hk2
      decide)⟩

/-- C9. When the input decomposes, the date parses and field 2 reads as the integer `c`, and
`c` is neither a Malaysian nor a foreign code (in a table whose valid codes are Malaysian or
foreign), `NewMyKAD` returns the error "invalid place of birth". -/
theorem NewMyKAD_invalid_place (D : Decls) (nric s0 s1 s2 s3 : GoString) (dob : Date) (c : Int)
    (hd : decodeNRIC nric = Outcome.returns [s0, s1, s2, s3])
    (ht : timeParse s0 = Except.ok dob) (hc : Atoi s1 = Except.ok c)
    (hM : D.isMalaysianCode c = false) (hF : D.isForeignerCode c = false)
    (hvalid : D.valid c = true → D.isMalaysianCode c = true ∨ D.isForeignerCode c = true) :
    NewMyKAD D nric = Outcome.returns (Except.error Error.invalidPlaceOfBirth) := by
  have hv : D.valid c = false := by
    cases h : D.valid c with
    | false => rfl
    | true =>
      rcases hvalid h with h2 | h2
      · rw [hM] at h2; cases h2
      · rw [hF] at h2; cases h2
  simp [NewMyKAD, hd, ht, hc, hv]

theorem NewMyKAD_invalid_place_witness :
    NewMyKAD sampleDecls (ascii "880808-99-0001") =
      Outcome.returns (Except.error Error.invalidPlaceOfBirth) :=
  NewMyKAD_invalid_place sampleDecls (ascii "880808-99-0001") (ascii "880808") (ascii "99")
    (ascii "000") (ascii "1") ⟨1988, 8, 8⟩ 99 rfl rfl rfl rfl rfl (by decide)

/-! ## The date step -/

/-- C10. For an input whose date field is six digits `YYMMDD`: when the month is 01 to 12 and
the day is a day of that month in the year `YY` denotes, the date step yields that date and
`NewMyKAD` does not return a date-parse error; otherwise the date step fails and `NewMyKAD`
returns the date-parse error. -/
theorem NewMyKAD_date_step (D : Decls) (nric s1 s2 s3 : GoString) (a0 a1 a2 a3 a4 a5 : Nat)
    (hdig : ∀ b ∈ [a0, a1, a2, a3, a4, a5], isDigitByte b = true)
    (hd : decodeNRIC nric = Outcome.returns [[a0, a1, a2, a3, a4, a5], s1, s2, s3]) :
    (ValidYYMMDD (twoDigit a0 a1) (twoDigit a2 a3) (twoDigit a4 a5) →
        timeParse [a0, a1, a2, a3, a4, a5] =
          Except.ok ⟨pivotYear (twoDigit a0 a1), twoDigit a2 a3, twoDigit a4 a5⟩ ∧
        ∀ pe, NewMyKAD D nric ≠ Outcome.returns (Except.error (Error.parsingDate pe))) ∧
      (¬ ValidYYMMDD (twoDigit a0 a1) (twoDigit a2 a3) (twoDigit a4 a5) →
        ∃ pe, timeParse [a0, a1, a2, a3, a4, a5] = Except.error pe ∧
          NewMyKAD D nric = Outcome.returns (Except.error (Error.parsingDate pe))) := by
  simp only [List.mem_cons, List.mem_singleton, List.not_mem_nil, or_false, forall_eq_or_imp,
    forall_eq] at hdig
  obtain ⟨h0, h1, h2, h3, h4, h5⟩ := hdig
  obtain ⟨hyes, hno⟩ := timeParse_six_digits_iff a0 a1 a2 a3 a4 a5 h0 h1 h2 h3 h4 h5
  constructor
  · intro hv
    refine ⟨hyes hv, ?_⟩
    intro pe
    simp only [NewMyKAD, hd, hyes hv]
    cases Atoi s1 with
    | error e => simp
    | ok pob =>
      cases hval : D.valid pob with
      | false => simp [hval]
      | true =>
        cases Atoi s3 with
        | error e => simp [hval]
        | ok g => simp [hval]
  · intro hv
    obtain ⟨pe, hpe⟩ := hno hv
    exact ⟨pe, hpe, by simp [NewMyKAD, hd, hpe]⟩

theorem NewMyKAD_date_step_witness :
    ValidYYMMDD 0 2 29 ∧ ¬ ValidYYMMDD 1 2 29 ∧ ¬ ValidYYMMDD 99 13 32 ∧
      ¬ ValidYYMMDD 99 12 32 ∧ ¬ ValidYYMMDD 88 2 30 ∧
      (timeParse (ascii "000229") = Except.ok ⟨2000, 2, 29⟩ ∧
        ∀ pe, NewMyKAD sampleDecls (ascii "000229-14-5029") ≠
          Outcome.returns (Except.error (Error.parsingDate pe))) ∧
      (∃ pe, timeParse (ascii "010229") = Except.error pe ∧
        NewMyKAD sampleDecls (ascii "010229-14-5029") =
          Outcome.returns (Except.error (Error.parsingDate pe))) ∧
      (∃ pe, timeParse (ascii "991332") = Except.error pe ∧
        NewMyKAD sampleDecls (ascii "991332-14-0001") =
          Outcome.returns (Except.error (Error.parsingDate pe))) ∧
      (∃ pe, timeParse (ascii "991232") = Except.error pe ∧
        NewMyKAD sampleDecls (ascii "991232-14-0001") =
          Outcome.returns (Except.error (Error.parsingDate pe))) ∧
      (∃ pe, timeParse (ascii "880230") = Except.error pe ∧
        NewMyKAD sampleDecls (ascii "880230-14-0001") =
          Outcome.returns (Except.error (Error.parsingDate pe))) :=
  ⟨by decide, by decide, by decide, by decide, by decide,
    (NewMyKAD_date_step sampleDecls (ascii "000229-14-5029") (ascii "14") (ascii "502")
      (ascii "9") 48 48 48 50 50 57 (by decide) rfl).1 (by decide),
    (NewMyKAD_date_step sampleDecls (ascii "010229-14-5029") (ascii "14") (ascii "502")
      (ascii "9") 48 49 48 50 50 57 (by decide) rfl).2 (by decide),
    (NewMyKAD_date_step sampleDecls (ascii "991332-14-0001") (ascii "14") (ascii "000")
      (ascii "1") 57 57 49 51 51 50 (by decide) rfl).2 (by decide),
    (NewMyKAD_date_step sampleDecls (ascii "991232-14-0001") (ascii "14") (ascii "000")
      (ascii "1") 57 57 49 50 51 50 (by decide) rfl).2 (by decide),
    (NewMyKAD_date_step sampleDecls (ascii "880230-14-0001") (ascii "14") (ascii "000")
      (ascii "1") 56 56 48 50 51 48 (by decide) rfl).2 (by decide)⟩

/-! ## The order of the failures -/

/-- C11 (defect of the code). The order of the steps is decoding, date, place-code parse,
place-code validity, gender digit, but the error of the first step is never returned: when
decoding fails `decodeNRIC` panics and so does `NewMyKAD`, and on no input does `NewMyKAD`
return the "invalid mykad number" error. When decoding succeeds it yields four fields, and:
a failing date gives the date-parse error whatever the other fields are; with the date
parsed, a place code that does not parse gives the place-code-parse error; with both parsed,
a code that is not valid gives the invalid-place-of-birth error whatever the last field is;
with all these passed, a last field that does not parse gives the gender-parse error; and
with all five steps passed a record is returned. -/
theorem NewMyKAD_fail_fast (D : Decls) (nric : GoString) :
    (decodeNRIC nric = Outcome.panics → NewMyKAD D nric = Outcome.panics) ∧
      NewMyKAD D nric ≠ Outcome.returns (Except.error Error.invalidMyKAD) ∧
      (∀ l, decodeNRIC nric = Outcome.returns l → ∃ s0 s1 s2 s3, l = [s0, s1, s2, s3]) ∧
      ∀ s0 s1 s2 s3, decodeNRIC nric = Outcome.returns [s0, s1, s2, s3] →
        (∀ pe, timeParse s0 = Except.error pe →
          NewMyKAD D nric = Outcome.returns (Except.error (Error.parsingDate pe))) ∧
        (∀ dob ne, timeParse s0 = Except.ok dob → Atoi s1 = Except.error ne →
          NewMyKAD D nric = Outcome.returns (Except.error (Error.parsingLocation ne))) ∧
        (∀ dob c, timeParse s0 = Except.ok dob → Atoi s1 = Except.ok c → D.valid c = false →
          NewMyKAD D nric = Outcome.returns (Except.error Error.invalidPlaceOfBirth)) ∧
        (∀ dob c ne, timeParse s0 = Except.ok dob → Atoi s1 = Except.ok c →
          D.valid c = true → Atoi s3 = Except.error ne →
          NewMyKAD D nric = Outcome.returns (Except.error (Error.parsingGender ne))) ∧
        (∀ dob c g, timeParse s0 = Except.ok dob → Atoi s1 = Except.ok c →
          D.valid c = true → Atoi s3 = Except.ok g →
          ∃ r, NewMyKAD D nric = Outcome.returns (Except.ok r)) := by
  refine ⟨?_, ?_, ?_, ?_⟩
  · intro hd
    simp [NewMyKAD, hd]
  · cases hdec : decodeNRIC nric with
    | panics => simp [NewMyKAD, hdec]
    | returns l =>
      obtain ⟨d, h1, h2, _, _, hl⟩ := decodeNRIC_shape nric l hdec
      subst hl
      simp only [NewMyKAD, hdec]
      cases timeParse (slice d 0 6) with
      | error e => simp
      | ok dob =>
        cases Atoi (slice d 6 8) with
        | error e => simp
        | ok pob =>
          cases hv : D.valid pob with
          | false => simp [hv]
          | true =>
            cases Atoi (d.drop 11) with
            | error e => simp [hv]
            | ok g => simp [hv]
  · intro l hd
    obtain ⟨d, h1, h2, _, _, hl⟩ := decodeNRIC_shape nric l hd
    exact ⟨_, _, _, _, hl⟩
  · intro s0 s1 s2 s3 hd
    refine ⟨?_, ?_, ?_, ?_, ?_⟩
    · intro pe ht
      simp [NewMyKAD, hd, ht]
    · intro dob ne ht hp
      simp [NewMyKAD, hd, ht, hp]
    · intro dob c ht hp hv
      simp [NewMyKAD, hd, ht, hp, hv]
    · intro dob c ne ht hp hv hg
      simp [NewMyKAD, hd, ht, hp, hv, hg]
    · intro dob c g ht hp hv hg
      exact ⟨_, (NewMyKAD_ok_iff D nric s0 s1 s2 s3 _ hd).mpr ⟨dob, c, g, ht, hp, hv, hg, rfl⟩⟩

theorem NewMyKAD_fail_fast_witness :
    decodeNRIC (ascii "991332-99-000x") = Outcome.panics ∧
      NewMyKAD sampleDecls (ascii "991332-99-000x") = Outcome.panics ∧
      NewMyKAD sampleDecls (ascii "991332-99-000x") ≠
        Outcome.returns (Except.error Error.invalidMyKAD) ∧
      (∃ pe, timeParse (ascii "991332") = Except.error pe ∧
        NewMyKAD sampleDecls (ascii "99133299000x") =
          Outcome.returns (Except.error (Error.parsingDate pe))) ∧
      sampleDecls.valid 99 = false ∧ (∃ ne, Atoi (ascii "x") = Except.error ne) ∧
      NewMyKAD sampleDecls (ascii "88080899000x") =
        Outcome.returns (Except.error Error.invalidPlaceOfBirth) :=
  ⟨rfl, (NewMyKAD_fail_fast sampleDecls (ascii "991332-99-000x")).1 rfl,
    (NewMyKAD_fail_fast sampleDecls (ascii "991332-99-000x")).2.1,
    ⟨_, rfl, ((NewMyKAD_fail_fast sampleDecls (ascii "99133299000x")).2.2.2
      (ascii "991332") (ascii "99") (ascii "000") (ascii "x") rfl).1 _ rfl⟩,
    rfl, ⟨_, rfl⟩,
    ((NewMyKAD_fail_fast sampleDecls (ascii "88080899000x")).2.2.2
      (ascii "880808") (ascii "99") (ascii "000") (ascii "x") rfl).2.2.1 ⟨1988, 8, 8⟩ 99
      rfl rfl rfl⟩

/-! ## The stored text -/

theorem record_text (D : Decls) (s : GoString) (r : MyKAD D)
    (hok : NewMyKAD D s = Outcome.returns (Except.ok r)) : r.NRIC = s := by
  cases hdec : decodeNRIC s with
  | panics => simp [NewMyKAD, hdec] at hok
  | returns l =>
    obtain ⟨d, h1, h2, _, _, hl⟩ := decodeNRIC_shape s l hdec
    subst hl
    obtain ⟨dob, pob, g, _, _, _, _, hr⟩ := (NewMyKAD_ok_iff D s _ _ _ _ r hdec).mp hok
    rw [hr]

/-- C12. On success the NRIC field of the record is the input text itself, byte for byte,
hyphens included. -/
theorem NewMyKAD_keeps_text (D : Decls) (s : GoString) (r : MyKAD D)
    (hok : NewMyKAD D s = Outcome.returns (Except.ok r)) :
    r.NRIC = s ∧ r.NRIC.length = s.length ∧ r.NRIC.count 45 = s.count 45 := by
  have h := record_text D s r hok
  rw [h]
  exact ⟨rfl, rfl, rfl⟩

theorem NewMyKAD_keeps_text_witness :
    NewMyKAD sampleDecls (ascii "900101-74-0000") = Outcome.returns (Except.ok chinaRecord) ∧
      chinaRecord.NRIC = ascii "900101-74-0000" ∧
      chinaRecord.NRIC.length = (ascii "900101-74-0000").length ∧
      chinaRecord.NRIC.count 45 = (ascii "900101-74-0000").count 45 :=
  ⟨rfl, NewMyKAD_keeps_text sampleDecls (ascii "900101-74-0000") chinaRecord rfl⟩

/-- C13. When `NewMyKAD` yields the record `r`, it yields the same record (all five fields
equal) on the stored text `r.NRIC`. -/
theorem NewMyKAD_round_trip (D : Decls) (s : GoString) (r : MyKAD D)
    (hok : NewMyKAD D s = Outcome.returns (Except.ok r)) :
    ∃ r2, NewMyKAD D r.NRIC = Outcome.returns (Except.ok r2) ∧ r2 = r ∧
      r2.NRIC = r.NRIC ∧ r2.DateOfBirth = r.DateOfBirth ∧ r2.PlaceOfBirth = r.PlaceOfBirth ∧
      r2.CitizenType = r.CitizenType ∧ r2.Gender = r.Gender := by
  refine ⟨r, ?_, rfl, rfl, rfl, rfl, rfl, rfl⟩
  rw [record_text D s r hok]
  exact hok

theorem NewMyKAD_round_trip_witness :
    NewMyKAD sampleDecls (ascii "900101-74-0000") = Outcome.returns (Except.ok chinaRecord) ∧
      ∃ r2, NewMyKAD sampleDecls chinaRecord.NRIC = Outcome.returns (Except.ok r2) ∧
        r2 = chinaRecord ∧ r2.NRIC = chinaRecord.NRIC ∧
        r2.DateOfBirth = chinaRecord.DateOfBirth ∧
        r2.PlaceOfBirth = chinaRecord.PlaceOfBirth ∧
        r2.CitizenType = chinaRecord.CitizenType ∧ r2.Gender = chinaRecord.Gender :=
  ⟨rfl, NewMyKAD_round_trip sampleDecls (ascii "900101-74-0000") chinaRecord rfl⟩

/-! ## Validate -/

/-- C14. `Validate` returns exactly the error of `NewMyKAD`: it returns nil exactly when
`NewMyKAD` yields a record, it returns the error `e` exactly when `NewMyKAD` returns `e`, and
it panics exactly when `NewMyKAD` does. -/
theorem Validate_eq_NewMyKAD_error (D : Decls) (s : GoString) :
    (Validate D s = Outcome.returns none ↔ ∃ r, NewMyKAD D s = Outcome.returns (Except.ok r)) ∧
      (∀ e, Validate D s = Outcome.returns (some e) ↔
        NewMyKAD D s = Outcome.returns (Except.error e)) ∧
      (Validate D s = Outcome.panics ↔ NewMyKAD D s = Outcome.panics) := by
  unfold Validate
  cases h : NewMyKAD D s with
  | panics => simp
  | returns x =>
    cases x with
    | error e => simp
    | ok r => simp

/-! ## The shape of a generated number -/

/-- What `Generate` returns, when it returns. -/
theorem Generate_returns (D : Decls) (W : World) (str : GoString)
    (hgen : Generate D W = some (Outcome.returns str)) :
    ∃ p, placeLoop D 0 W.draws = some p ∧
      str = format060102 (W.localDate (W.int63n + W.unixAddYears (-maxAge))) ++ [45] ++
        sprintfZeroPad 2 p ++ [45] ++ sprintfZeroPad 4 (W.intn9999 : Int) := by
  simp only [Generate] at hgen
  split at hgen
  · cases hgen
  · cases hp : placeLoop D 0 W.draws with
    | none => simp [hp] at hgen
    | some p =>
      simp only [hp] at hgen
      injection hgen with hgen
      injection hgen with hgen
      exact ⟨p, rfl, hgen.symm⟩

/-- The code the loop ends with is valid, and is 0 or one of the outcomes drawn. -/
theorem placeLoop_code (D : Decls) (draws : List Nat) (p : Int)
    (hp : placeLoop D 0 draws = some p) (hdraws : ∀ x ∈ draws, x < 99) :
    ∃ c : Nat, c < 99 ∧ p = (c : Int) ∧ D.valid (c : Int) = true ∧ (c = 0 ∨ c ∈ draws) := by
  obtain ⟨hv, hq⟩ := placeLoop_spec D draws 0 p hp
  rcases hq with hq | ⟨x, hx, hq⟩
  · subst hq
    exact ⟨0, by decide, rfl, hv, Or.inl rfl⟩
  · subst hq
    exact ⟨x, hdraws x hx, rfl, hv, Or.inr hx⟩

/-- C15. Every text `Generate` returns has length 14 and the shape six digits, hyphen, two
digits, hyphen, four digits, whenever the outcomes of the random source lie in their ranges
and the date of the sampled instant is a calendar date (of any year). -/
theorem Generate_shape (D : Decls) (W : World) (str : GoString)
    (hgen : Generate D W = some (Outcome.returns str))
    (hdraws : ∀ x ∈ W.draws, x < 99) (hsn : W.intn9999 < 9999)
    (hdate : IsCivilDate (W.localDate (W.int63n + W.unixAddYears (-maxAge)))) :
    str.length = 14 ∧
      ∃ a b c : GoString, a.length = 6 ∧ b.length = 2 ∧ c.length = 4 ∧
        (∀ x ∈ a ++ b ++ c, isDigitByte x = true) ∧ str = a ++ [45] ++ b ++ [45] ++ c := by
  obtain ⟨p, hp, hstr⟩ := Generate_returns D W str hgen
  obtain ⟨c, hc, rfl, _, _⟩ := placeLoop_code D W.draws p hp hdraws
  generalize W.localDate (W.int63n + W.unixAddYears (-maxAge)) = d at hdate hstr
  rw [format060102_civil _ hdate, sprintfZeroPad_two c (by omega),
    sprintfZeroPad_four W.intn9999 (by omega)] at hstr
  obtain ⟨hm1, hm2, hd1, hd2⟩ := hdate
  have hd3 := daysIn_le d.month d.year hm1 hm2
  subst hstr
  refine ⟨rfl,
    [48 + d.year.natAbs % 100 / 10, 48 + d.year.natAbs % 100 % 10, 48 + d.month / 10,
      48 + d.month % 10, 48 + d.day / 10, 48 + d.day % 10],
    [48 + c / 10, 48 + c % 10],
    [48 + W.intn9999 / 1000, 48 + W.intn9999 / 100 % 10, 48 + W.intn9999 / 10 % 10,
      48 + W.intn9999 % 10], rfl, rfl, rfl, ?_, rfl⟩
  intro x hx
  simp only [List.mem_append, List.mem_cons, List.mem_singleton, List.not_mem_nil,
    or_false] at hx
  rcases hx with ((rfl | rfl | rfl | rfl | rfl | rfl) | (rfl | rfl)) |
    (rfl | rfl | rfl | rfl) <;> exact isDigitByte_add _ (by omega)

theorem Generate_shape_witness :
    Generate sampleDecls sampleWorld = some (Outcome.returns (ascii "000229-14-9998")) ∧
      (ascii "000229-14-9998").length = 14 ∧
      ∃ a b c : GoString, a.length = 6 ∧ b.length = 2 ∧ c.length = 4 ∧
        (∀ x ∈ a ++ b ++ c, isDigitByte x = true) ∧
        ascii "000229-14-9998" = a ++ [45] ++ b ++ [45] ++ c :=
  ⟨rfl, Generate_shape sampleDecls sampleWorld (ascii "000229-14-9998") rfl (by decide)
    (by decide) (by decide)⟩

/-! ## The last four digits of a generated number -/

theorem lastFour_append (x l : GoString) (h : l.length = 4) : lastFour (x ++ l) = l := by
  unfold lastFour
  rw [List.length_append, h, Nat.add_sub_cancel]
  exact List.drop_left x l

theorem groupValue_four (a b c d : Nat) :
    groupValue [48 + a, 48 + b, 48 + c, 48 + d] = a * 1000 + b * 100 + c * 10 + d := by
  simp only [groupValue, List.foldl, Nat.add_sub_cancel_left]
  omega

/-- The last four bytes of a returned text are the four digits of the last outcome. -/
theorem Generate_lastFour_eq (D : Decls) (W : World) (str : GoString)
    (hgen : Generate D W = some (Outcome.returns str)) (hsn : W.intn9999 < 10000) :
    lastFour str =
      [48 + W.intn9999 / 1000, 48 + W.intn9999 / 100 % 10, 48 + W.intn9999 / 10 % 10,
        48 + W.intn9999 % 10] := by
  obtain ⟨p, _, hstr⟩ := Generate_returns D W str hgen
  rw [sprintfZeroPad_four W.intn9999 hsn] at hstr
  rw [hstr]
  exact lastFour_append _ _ rfl

/-- C16 (counterexample). The group 9999 is not possible: no outcome of `rand.Intn(9999)`,
which lies below 9999, makes `Generate` return a text that ends in "9999". -/
theorem Generate_never_9999 :
    ¬ ∃ (D : Decls) (W : World) (str : GoString),
      W.intn9999 < 9999 ∧ Generate D W = some (Outcome.returns str) ∧
        lastFour str = ascii "9999" := by
  rintro ⟨D, W, str, hsn, hgen, hlast⟩
  rw [Generate_lastFour_eq D W str hgen (by omega)] at hlast
  have h : [48 + W.intn9999 / 1000, 48 + W.intn9999 / 100 % 10, 48 + W.intn9999 / 10 % 10,
      48 + W.intn9999 % 10] = [57, 57, 57, 57] := hlast
  simp only [List.cons.injEq, and_true] at h
  omega

/-- C16 (as amended). The last four bytes of a text `Generate` returns are the outcome of
`rand.Intn(9999)` in decimal, zero-padded to four digits: a value from 0 to 9998, never 9999;
and every value from 0 to 9998 is the final group of an output (of the same call with that
outcome). -/
theorem Generate_last_four (D : Decls) (W : World) (str : GoString)
    (hgen : Generate D W = some (Outcome.returns str)) (hsn : W.intn9999 < 9999) :
    lastFour str = sprintfZeroPad 4 (W.intn9999 : Int) ∧ (lastFour str).length = 4 ∧
      (∀ b ∈ lastFour str, isDigitByte b = true) ∧
      groupValue (lastFour str) = W.intn9999 ∧ groupValue (lastFour str) ≤ 9998 ∧
      lastFour str ≠ ascii "9999" ∧
      ∀ n, n < 9999 →
        ∃ str2, Generate D { W with intn9999 := n } = some (Outcome.returns str2) ∧
          groupValue (lastFour str2) = n := by
  have hl := Generate_lastFour_eq D W str hgen (by omega)
  have hv : groupValue (lastFour str) = W.intn9999 := by
    rw [hl, groupValue_four]; omega
  refine ⟨?_, ?_, ?_, hv, by omega, ?_, ?_⟩
  · rw [hl, sprintfZeroPad_four W.intn9999 (by omega)]
  · rw [hl]; rfl
  · rw [hl]
    intro b hb
    simp only [List.mem_cons, List.mem_singleton, List.not_mem_nil, or_false] at hb
    rcases hb with rfl | rfl | rfl | rfl <;> exact isDigitByte_add _ (by omega)
  · intro h9
    have h2 : groupValue (lastFour str) = 9999 := by rw [h9]; rfl
    omega
  · intro n hn
    obtain ⟨p, hp, _⟩ := Generate_returns D W str hgen
    have hne : ¬ (W.unixAddYears (-minAge) - W.unixAddYears (-maxAge) ≤ 0) := by
      intro hle
      simp [Generate, hle] at hgen
    have hg2 : Generate D { W with intn9999 := n } =
        some (Outcome.returns
          (format060102 (W.localDate (W.int63n + W.unixAddYears (-maxAge))) ++ [45] ++
            sprintfZeroPad 2 p ++ [45] ++ sprintfZeroPad 4 (n : Int))) := by
      simp [Generate, hne, hp]
    refine ⟨_, hg2, ?_⟩
    have hl2 := Generate_lastFour_eq D { W with intn9999 := n } _ hg2 (by show n < 10000; omega)
    rw [hl2, groupValue_four]
    show n / 1000 * 1000 + n / 100 % 10 * 100 + n / 10 % 10 * 10 + n % 10 = n
    omega

theorem Generate_last_four_witness :
    Generate sampleDecls sampleWorld = some (Outcome.returns (ascii "000229-14-9998")) ∧
      lastFour (ascii "000229-14-9998") = sprintfZeroPad 4 9998 ∧
      (lastFour (ascii "000229-14-9998")).length = 4 ∧
      (∀ b ∈ lastFour (ascii "000229-14-9998"), isDigitByte b = true) ∧
      groupValue (lastFour (ascii "000229-14-9998")) = 9998 ∧
      groupValue (lastFour (ascii "000229-14-9998")) ≤ 9998 ∧
      lastFour (ascii "000229-14-9998") ≠ ascii "9999" ∧
      ∀ n, n < 9999 →
        ∃ str2, Generate sampleDecls { sampleWorld with intn9999 := n } =
            some (Outcome.returns str2) ∧
          groupValue (lastFour str2) = n :=
  ⟨rfl, Generate_last_four sampleDecls sampleWorld (ascii "000229-14-9998") rfl (by decide)⟩

/-! ## The unpunctuated form -/

/-- C17. On a text of exactly 12 bytes, whatever the bytes, `decodeNRIC` returns the four
slices `[0:6]`, `[6:8]`, `[8:11]`, `[11:12]`; their lengths are 6, 2, 3 and 1 and their
concatenation is the text. -/
theorem decodeNRIC_twelve_bytes (s : GoString) (hlen : s.length = 12) :
    decodeNRIC s = Outcome.returns [slice s 0 6, slice s 6 8, slice s 8 11, slice s 11 12] ∧
      (slice s 0 6).length = 6 ∧ (slice s 6 8).length = 2 ∧ (slice s 8 11).length = 3 ∧
      (slice s 11 12).length = 1 ∧
      slice s 0 6 ++ slice s 6 8 ++ slice s 8 11 ++ slice s 11 12 = s := by
  obtain ⟨a0, a1, a2, a3, a4, a5, a6, a7, a8, a9, a10, a11, rfl⟩ := length_twelve s hlen
  exact ⟨rfl, rfl, rfl, rfl, rfl, rfl⟩

theorem decodeNRIC_twelve_bytes_witness :
    (ascii "ab-d ef+hi!l").length = 12 ∧
      decodeNRIC (ascii "ab-d ef+hi!l") =
        Outcome.returns [ascii "ab-d e", ascii "f+", ascii "hi!", ascii "l"] ∧
      (ascii "ab-d e").length = 6 ∧ (ascii "f+").length = 2 ∧ (ascii "hi!").length = 3 ∧
      (ascii "l").length = 1 ∧
      ascii "ab-d e" ++ ascii "f+" ++ ascii "hi!" ++ ascii "l" = ascii "ab-d ef+hi!l" :=
  ⟨by decide, decodeNRIC_twelve_bytes (ascii "ab-d ef+hi!l") (by decide)⟩

/-! ## The serial field -/

/-- Inputs that decompose alike but for field 3 are treated alike, up to the stored text. -/
theorem NewMyKAD_serial_congr (D : Decls) (a b s0 s1 s2 t2 s3 : GoString)
    (ha : decodeNRIC a = Outcome.returns [s0, s1, s2, s3])
    (hb : decodeNRIC b = Outcome.returns [s0, s1, t2, s3]) :
    parsedFields (NewMyKAD D a) = parsedFields (NewMyKAD D b) := by
  simp only [NewMyKAD, ha, hb]
  cases timeParse s0 with
  | error e => rfl
  | ok dob =>
    cases Atoi s1 with
    | error e => rfl
    | ok pob =>
      cases hv : D.valid pob with
      | false => simp [hv]
      | true =>
        cases Atoi s3 with
        | error e => simp [hv]
        | ok g => simp [hv, parsedFields]

/-- C18. Two spellings, with the same hyphens, of twelve digits that differ only at the
serial positions 8 to 10: `NewMyKAD` returns on both, with the same error or with records
that have the same date of birth, place of birth, citizen type and gender. -/
theorem NewMyKAD_serial_irrelevant (D : Decls) (d e : GoString) (h1 h2 : Bool)
    (hd : d.length = 12) (he : e.length = 12)
    (hdd : ∀ b ∈ d, isDigitByte b = true) (hde : ∀ b ∈ e, isDigitByte b = true)
    (hsame : d.take 8 = e.take 8 ∧ d.drop 11 = e.drop 11) :
    NewMyKAD D (spell d h1 h2) ≠ Outcome.panics ∧
      NewMyKAD D (spell e h1 h2) ≠ Outcome.panics ∧
      parsedFields (NewMyKAD D (spell d h1 h2)) = parsedFields (NewMyKAD D (spell e h1 h2)) := by
  have h6 : slice d 0 6 = slice e 0 6 := by
    have h := congrArg (List.take 6) hsame.1
    simpa [slice, List.take_take] using h
  have h8 : slice d 6 8 = slice e 6 8 := by
    have h := congrArg (fun l => (List.drop 6 l).take 2) hsame.1
    obtain ⟨a0, a1, a2, a3, a4, a5, a6, a7, a8, a9, a10, a11, rfl⟩ := length_twelve d hd
    obtain ⟨b0, b1, b2, b3, b4, b5, b6, b7, b8, b9, b10, b11, rfl⟩ := length_twelve e he
    simpa [slice] using h
  have hdec1 := decodeNRIC_spell d hd hdd h1 h2
  have hdec2 := decodeNRIC_spell e he hde h1 h2
  rw [h6, h8, hsame.2] at hdec1
  exact ⟨NewMyKAD_returns_of_decode D _ _ hdec1, NewMyKAD_returns_of_decode D _ _ hdec2,
    NewMyKAD_serial_congr D _ _ _ _ _ _ _ hdec1 hdec2⟩

theorem NewMyKAD_serial_irrelevant_witness :
    spell (ascii "880808145029") true true = ascii "880808-14-5029" ∧
      spell (ascii "880808149999") true true = ascii "880808-14-9999" ∧
      NewMyKAD sampleDecls (ascii "880808-14-5029") ≠ Outcome.panics ∧
      NewMyKAD sampleDecls (ascii "880808-14-9999") ≠ Outcome.panics ∧
      parsedFields (NewMyKAD sampleDecls (ascii "880808-14-5029")) =
        parsedFields (NewMyKAD sampleDecls (ascii "880808-14-9999")) :=
  ⟨rfl, rfl,
    NewMyKAD_serial_irrelevant sampleDecls (ascii "880808145029") (ascii "880808149999")
      true true (by decide) (by decide) (by decide) (by decide) (by decide)⟩

/-! ## The place code of a generated number -/

theorem placeLoop_start (D : Decls) (p : Int) (draws : List Nat) (h : D.valid p = true) :
    placeLoop D p draws = some p := by
  cases draws with
  | nil => simp [placeLoop, h]
  | cons x rest => simp [placeLoop, h]

/-- C19. The loop of `Generate` tests code 0 before any draw. The place field of a returned
text is the two digits of a valid code from 0 to 98 (so never "99"). When code 0 is valid
the field is "00" and the same text is returned with no outcome of `rand.Intn(99)` at all;
when code 0 is not valid the code is one of the outcomes drawn. -/
theorem Generate_place_code (D : Decls) (W : World) (str : GoString)
    (hgen : Generate D W = some (Outcome.returns str)) (hdraws : ∀ x ∈ W.draws, x < 99) :
    ∃ c : Nat, c ≤ 98 ∧ D.valid (c : Int) = true ∧
      str = format060102 (W.localDate (W.int63n + W.unixAddYears (-maxAge))) ++ [45] ++
        [48 + c / 10, 48 + c % 10] ++ [45] ++ sprintfZeroPad 4 (W.intn9999 : Int) ∧
      [48 + c / 10, 48 + c % 10] ≠ ascii "99" ∧
      (D.valid 0 = true →
        c = 0 ∧ [48 + c / 10, 48 + c % 10] = ascii "00" ∧
          Generate D { W with draws := [] } = some (Outcome.returns str)) ∧
      (D.valid 0 = false → c ∈ W.draws) := by
  obtain ⟨p, hp, hstr⟩ := Generate_returns D W str hgen
  obtain ⟨c, hc, rfl, hv, hfrom⟩ := placeLoop_code D W.draws p hp hdraws
  rw [sprintfZeroPad_two c (by omega)] at hstr
  refine ⟨c, by omega, hv, hstr, ?_, ?_, ?_⟩
  · intro h99
    have h : [48 + c / 10, 48 + c % 10] = [57, 57] := h99
    simp only [List.cons.injEq, and_true] at h
    omega
  · intro hv0
    have h0 := placeLoop_start D 0 W.draws hv0
    rw [hp] at h0
    injection h0 with h0
    have hc0 : c = 0 := by omega
    subst hc0
    refine ⟨rfl, rfl, ?_⟩
    have hne : ¬ (W.unixAddYears (-minAge) - W.unixAddYears (-maxAge) ≤ 0) := by
      intro hle
      simp [Generate, hle] at hgen
    rw [hstr]
    simp only [Generate, hne, if_false, placeLoop_start D 0 [] hv0]
    rfl
  · intro hv0
    rcases hfrom with h0 | hmem
    · subst h0
      rw [show ((0 : Nat) : Int) = 0 from rfl, hv0] at hv
      cases hv
    · exact hmem

theorem Generate_place_code_witness :
    Generate sampleDecls sampleWorld = some (Outcome.returns (ascii "000229-14-9998")) ∧
      sampleDecls.valid 0 = false ∧
      (∃ c : Nat, c ≤ 98 ∧ sampleDecls.valid (c : Int) = true ∧
        ascii "000229-14-9998" =
          format060102 (sampleWorld.localDate
            (sampleWorld.int63n + sampleWorld.unixAddYears (-maxAge))) ++ [45] ++
          [48 + c / 10, 48 + c % 10] ++ [45] ++ sprintfZeroPad 4 (sampleWorld.intn9999 : Int) ∧
        [48 + c / 10, 48 + c % 10] ≠ ascii "99" ∧
        (sampleDecls.valid 0 = true →
          c = 0 ∧ [48 + c / 10, 48 + c % 10] = ascii "00" ∧
            Generate sampleDecls { sampleWorld with draws := [] } =
              some (Outcome.returns (ascii "000229-14-9998"))) ∧
        (sampleDecls.valid 0 = false → c ∈ sampleWorld.draws)) ∧
      Generate zeroDecls sampleWorld = some (Outcome.returns (ascii "000229-00-9998")) ∧
      zeroDecls.valid 0 = true ∧
      Generate zeroDecls { sampleWorld with draws := [] } =
        some (Outcome.returns (ascii "000229-00-9998")) :=
  ⟨rfl, rfl,
    Generate_place_code sampleDecls sampleWorld (ascii "000229-14-9998") rfl (by decide),
    rfl, rfl,
    (Generate_place_code zeroDecls sampleWorld (ascii "000229-00-9998") rfl (by decide)).elim
      (fun _ h => (h.2.2.2.2.1 rfl).2.2)⟩

/-! ## Acceptance is gated on valid alone -/

/-- C20. When the input decomposes, the date and the last field parse, and field 2 reads as a
code `c` that is valid but neither Malaysian nor foreign, `NewMyKAD` succeeds: the record has
the zero value as citizen type and an empty country and province. So, when the zero value
is neither of the two constants, that record is classified neither Malaysian nor
Foreigner. -/
theorem NewMyKAD_valid_alone (D : Decls) (nric s0 s1 s2 s3 : GoString) (dob : Date)
    (c g : Int) (hd : decodeNRIC nric = Outcome.returns [s0, s1, s2, s3])
    (ht : timeParse s0 = Except.ok dob) (hc : Atoi s1 = Except.ok c)
    (hg : Atoi s3 = Except.ok g) (hv : D.valid c = true)
    (hM : D.isMalaysianCode c = false) (hF : D.isForeignerCode c = false) :
    NewMyKAD D nric = Outcome.returns (Except.ok
        { NRIC := nric
          DateOfBirth := dob
          PlaceOfBirth := { Country := [], Province := [] }
          CitizenType := D.CitizenTypeZero
          Gender := if g.tmod 2 = 0 then D.GenderFemale else D.GenderMale }) ∧
      (D.CitizenTypeZero ≠ D.CitizenTypeMalaysian → D.CitizenTypeZero ≠ D.CitizenTypeForeigner →
        ∃ r, NewMyKAD D nric = Outcome.returns (Except.ok r) ∧
          r.CitizenType ≠ D.CitizenTypeMalaysian ∧ r.CitizenType ≠ D.CitizenTypeForeigner) := by
  have h : NewMyKAD D nric = Outcome.returns (Except.ok
      { NRIC := nric
        DateOfBirth := dob
        PlaceOfBirth := { Country := [], Province := [] }
        CitizenType := D.CitizenTypeZero
        Gender := if g.tmod 2 = 0 then D.GenderFemale else D.GenderMale }) := by
    refine (NewMyKAD_ok_iff D nric s0 s1 s2 s3 _ hd).mpr ⟨dob, c, g, ht, hc, hv, hg, ?_⟩
    simp [classify, hM, hF]
  exact ⟨h, fun n1 n2 => ⟨_, h, n1, n2⟩⟩

theorem NewMyKAD_valid_alone_witness :
    zeroDecls.valid 0 = true ∧ zeroDecls.isMalaysianCode 0 = false ∧
      zeroDecls.isForeignerCode 0 = false ∧
      NewMyKAD zeroDecls (ascii "000229-00-0001") = Outcome.returns (Except.ok
        { NRIC := ascii "000229-00-0001"
          DateOfBirth := ⟨2000, 2, 29⟩
          PlaceOfBirth := { Country := [], Province := [] }
          CitizenType := zeroDecls.CitizenTypeZero
          Gender := zeroDecls.GenderMale }) :=
  ⟨rfl, rfl, rfl,
    (NewMyKAD_valid_alone zeroDecls (ascii "000229-00-0001") (ascii "000229") (ascii "00")
      (ascii "000") (ascii "1") ⟨2000, 2, 29⟩ 0 1 rfl rfl rfl rfl rfl rfl rfl).1⟩

end MyKad
